import Mathlib

/-
Verification of the Bambu-Run telemetry collector core.

Shallow embedding of the Python sources:
  - bambu_run/utils.py                       (color-code normalisation, color registry lookup)
  - bambu_run/models.py                      (Filament, FilamentSnapshot, PrintJob, FilamentUsage)
  - bambu_run/management/commands/bambu_collector.py
                                             (inventory matcher, filament status update,
                                              print-job lifecycle tracker, collection cycle)
  - bambu_run/management/commands/bambu_cleanup.py
                                             (snapshot retention)
  - bambu_run/mqtt_client.py                 (PrinterStateAccumulator deep merge)

Modelling conventions:
  - Python `None` becomes `Option.none`; Python truthiness of optional strings is
    `truthyS` (None and "" are falsy).
  - Django rows live in plain lists; `QuerySet.first()` is `qFirst` with the
    ordering the query carries (the model Meta ordering for plain filters, the
    explicit `order_by` key otherwise), with ties resolved by list position and
    SQL NULLs sorting first (SQLite, the default backend of the project).
  - Timestamps (`timezone.now()`) are integer seconds.
  - `DecimalField(decimal_places=2)` values are stored as integer hundredths.
  - Python float expressions of the shape `int(a * (b / 100.0))` are idealised
    to exact integer arithmetic `Int.tdiv (a * b) 100` (truncation toward zero,
    matching `int()` on the real value of the expression).
  - `int(str)` is `pyParseInt`: leading/trailing whitespace stripped, optional
    sign, decimal digits.
-/

/-! ## Python value helpers -/

/-- A Python scalar that can sit in `Filament.current_tray_id`: the collector
stores tray indices sometimes as the raw MQTT string (directly after
`Filament.objects.create`) and sometimes as the integer the database holds.
Python `==` between an `int` and a `str` is `False`, which this type's
propositional equality reproduces. -/
inductive PyVal where
  | pint : Int → PyVal
  | pstr : String → PyVal
deriving DecidableEq

/-- Python truthiness of an optional string: `None` and `""` are falsy. -/
def truthyS : Option String → Bool
  | none => false
  | some s => s ≠ ""

/-- Decimal digit run accumulator for `pyParseInt`; `none` on the first
non-digit character or on an empty run (handled by the caller). -/
def digitsToNatAux : List Char → Nat → Option Nat
  | [], acc => some acc
  | c :: rest, acc =>
    if c.isDigit then digitsToNatAux rest (acc * 10 + (c.toNat - 48)) else none

/-- A non-empty all-digit character run as a natural number. -/
def digitsToNat : List Char → Option Nat
  | [] => none
  | cs => digitsToNatAux cs 0

/-- Whitespace stripping as done by Python `int(str)`. -/
def pyStrTrim (s : String) : List Char :=
  ((s.data.dropWhile Char.isWhitespace).reverse.dropWhile Char.isWhitespace).reverse

/-- Python `int(s)` where it succeeds: whitespace-stripped optional-sign
decimal digits. Used for `int(tray_now)` inside
`try/except (ValueError, TypeError)`. -/
def pyParseInt (s : String) : Option Int :=
  match pyStrTrim s with
  | '-' :: rest => (digitsToNat rest).map (fun n => -(n : Int))
  | '+' :: rest => (digitsToNat rest).map (fun n => (n : Int))
  | cs => (digitsToNat cs).map (fun n => (n : Int))

/-- Database integer coercion applied by Django when a numeric string is saved
into an `IntegerField` (defaults to 0 only off the paths the program exercises,
where the string is always numeric). -/
def strToIntD (s : String) : Int :=
  (pyParseInt s).getD 0

/-- The coercion a `Filament` row undergoes on save: a string tray index is
stored as its integer value, an integer is kept. -/
def pyNormalizeTray : PyVal → PyVal
  | .pstr s => .pint (strToIntD s)
  | .pint n => .pint n

/-- Python string slice `s[:n]` (by code point, as in Python). -/
def pySlice (s : String) (n : Nat) : String :=
  String.mk (s.data.take n)

/-- Python `str.upper()`, per code point (the strings this program upper-cases
are ASCII hex digit strings). -/
def pyUpper (s : String) : String :=
  String.mk (s.data.map Char.toUpper)

/-! ## utils.strip_color_padding -/

/-- Embedding of `utils.strip_color_padding`: strip an 8-hex-digit color down
to its first 6 digits, upper-cased; `None`/empty input yields `None`. -/
def strip_color_padding (mqtt_color : Option String) : Option String :=
  match mqtt_color with
  | none => none
  | some s =>
    if s = "" then none
    else if s.length = 8 then some (pyUpper (pySlice s 6))
    else if 6 ≤ s.length then some (pyUpper (pySlice s 6))
    else some (pyUpper s)

/-! ## FilamentColor registry and utils.match_filament_color -/

/-- A row of the `FilamentColor` registry (`models.FilamentColor`), at the
columns `match_filament_color` consults. -/
structure FilamentColor where
  color_code : String
  color_name : String
  filament_type : String
  filament_sub_type : Option String := none
  brand : String := "Bambu Lab"
deriving DecidableEq

/-- Boolean strict order on strings (database collation order, modelled as the
Lean string order). -/
def strLTb (a b : String) : Bool :=
  decide (a < b)

/-- Lift a strict order to `Option`, with `none` (SQL NULL) sorting first. -/
def optLTBy (lt : α → α → Bool) : Option α → Option α → Bool
  | none, some _ => true
  | some a, some b => lt a b
  | _, _ => false

/-- `QuerySet.first()` over an already-filtered row list: leftmost row that is
minimal for the strict order `lt` (list position breaks ties, standing in for
the unspecified SQL tie order). -/
def qFirst (lt : α → α → Bool) : List α → Option α
  | [] => none
  | a :: rest =>
    match qFirst lt rest with
    | none => some a
    | some b => if lt b a then some b else some a

/-- `FilamentColor.Meta.ordering = ['filament_type', 'filament_sub_type', 'color_name']`. -/
def fcMetaLT (a b : FilamentColor) : Bool :=
  strLTb a.filament_type b.filament_type ||
  (a.filament_type == b.filament_type &&
    (optLTBy strLTb a.filament_sub_type b.filament_sub_type ||
      (a.filament_sub_type == b.filament_sub_type && strLTb a.color_name b.color_name)))

/-- Embedding of `utils.match_filament_color`: exact registry lookup on
(type, sub-type, code, brand), retried without the sub-type when the first
lookup misses; `None` when type or code is falsy. -/
def match_filament_color (registry : List FilamentColor) (filament_type : String)
    (filament_sub_type : String) (color_code : Option String) (brand : String) :
    Option FilamentColor :=
  if filament_type = "" ∨ ¬ truthyS color_code then none
  else
    let code := color_code.getD ""
    let withSub :=
      if filament_sub_type ≠ "" then
        qFirst fcMetaLT (registry.filter (fun fc =>
          fc.filament_type == filament_type &&
          fc.filament_sub_type == some filament_sub_type &&
          fc.color_code == code && fc.brand == brand))
      else none
    match withSub with
    | some fc => some fc
    | none =>
      qFirst fcMetaLT (registry.filter (fun fc =>
        fc.filament_type == filament_type && fc.color_code == code && fc.brand == brand))

/-! ## Filament inventory model -/

/-- A `models.Filament` row, at the columns the collector reads or writes.
The source field `type` is rendered `ftype`. `diameter` is kept in hundredths
of a millimetre (`DecimalField(decimal_places=2)`). -/
structure Filament where
  id : Nat
  tray_uuid : Option String := none
  tag_uid : Option String := none
  tag_id : Option String := none
  ftype : String := ""
  sub_type : Option String := none
  brand : String := ""
  color : Option String := none
  color_hex : Option String := none
  diameter_hundredths : Int := 175
  initial_weight_grams : Option Int := none
  remaining_percent : Int := 100
  remaining_weight_grams : Option Int := none
  is_loaded_in_ams : Bool := false
  current_tray_id : Option PyVal := none
  last_loaded_date : Option Int := none
  last_used : Option Int := none
  created_by : String := "Manual"
deriving DecidableEq

/-- Embedding of `Filament.update_remaining_weight`:
`remaining_weight = int(initial_weight * (remaining_percent / 100.0))`, only
when `initial_weight_grams` is truthy. -/
def update_remaining_weight (f : Filament) : Filament :=
  match f.initial_weight_grams with
  | some w => if w ≠ 0 then
      { f with remaining_weight_grams := some (Int.tdiv (w * f.remaining_percent) 100) }
    else f
  | none => f

/-- One slot observation as handed to the matcher (`tray_data` dict). The
source key `type` is rendered `ttype`; `tray_diameter` is in hundredths. -/
structure TrayData where
  tray_id : Option String := none
  tray_uuid : Option String := none
  tag_uid : Option String := none
  tag_id : Option String := none
  ttype : Option String := none
  sub_type : Option String := none
  color : Option String := none
  remain_percent : Option Int := none
  tray_diameter : Option Int := none
  tray_weight : Option Int := none
deriving DecidableEq

/-- The persisted inventory state the collector works against: `Filament`
rows, the `FilamentType` registry keys `(type, sub_type, brand)`, the
`FilamentColor` registry, and the primary-key counter. -/
structure InventoryDB where
  filaments : List Filament := []
  filament_types : List (String × Option String × String) := []
  colors : List FilamentColor := []
  nextFilamentId : Nat := 0
deriving DecidableEq

/-- `Filament.Meta.ordering = ['type', 'brand', 'color', '-remaining_percent']`
(the ordering of a plain `.filter(...).first()` on `Filament`). -/
def filamentMetaLT (f g : Filament) : Bool :=
  strLTb f.ftype g.ftype ||
  (f.ftype == g.ftype && (strLTb f.brand g.brand ||
    (f.brand == g.brand && (optLTBy strLTb f.color g.color ||
      (f.color == g.color && decide (g.remaining_percent < f.remaining_percent))))))

/-- The `order_by('remaining_percent', 'last_used')` key of the heuristic
match: lowest remaining percent first, then least-recently-used (NULL first). -/
def filamentHeurLT (f g : Filament) : Bool :=
  decide (f.remaining_percent < g.remaining_percent) ||
  (f.remaining_percent == g.remaining_percent &&
    optLTBy (fun a b => decide (a < b)) f.last_used g.last_used)

/-- Normalisation a `Filament` row undergoes when written to the database. -/
def dbSaveFilament (f : Filament) : Filament :=
  { f with current_tray_id := f.current_tray_id.map pyNormalizeTray }

/-- `filament.save()`: update the row with the same primary key, insert when
no such row exists. -/
def saveFilamentRow (rows : List Filament) (f : Filament) : List Filament :=
  if rows.any (fun g => g.id == f.id) then
    rows.map (fun g => if g.id == f.id then f else g)
  else rows ++ [f]

/-- Saving one filament instance into the inventory (with the database
coercion on the tray index). -/
def saveFilament (db : InventoryDB) (f : Filament) : InventoryDB :=
  { db with filaments := saveFilamentRow db.filaments (dbSaveFilament f) }

/-! ## Inventory matcher (`_match_filament_to_inventory`, `_auto_create_filament`,
`_update_filament_status`, per-slot body of `_create_filament_snapshots`) -/

/-- The match method reported in `FilamentSnapshot.match_method`. -/
inductive MatchMethod where
  | by_tray_uuid
  | by_tag_uid
  | by_tag_id
  | type_sub_type_color
  | auto_created
deriving DecidableEq

/-- The `query_filters` of the heuristic match: `type`, `color`, plus
`sub_type` when the observed sub-type is truthy. -/
def heuristicFilters (td : TrayData) (f : Filament) : Bool :=
  f.ftype == td.ttype.getD "" && f.color == td.color &&
  (if truthyS td.sub_type then f.sub_type == td.sub_type else true)

/-- Embedding of `_auto_create_filament`: resolve a colour name through the
registry, get-or-create the `FilamentType` key, then create a new spool that
is immediately loaded at the observed slot. Returns the in-memory instance
(whose `current_tray_id` still holds the observed string) and the new
database state. `tray_data.get(key, default)` is modelled as `Option.getD`. -/
def auto_create_filament (now : Int) (db : InventoryDB) (td : TrayData) :
    Filament × InventoryDB :=
  let type_val := td.ttype.getD "Unknown"
  let sub_type := td.sub_type.getD ""
  let remain_percent := td.remain_percent.getD 100
  let diameter := td.tray_diameter.getD 175
  let initial_weight := td.tray_weight.getD 1000
  let default_brand := "Bambu Lab"
  let color_code := strip_color_padding td.color
  let color_hex := color_code.map (fun c => "#" ++ c)
  let filament_color := match_filament_color db.colors type_val sub_type color_code default_brand
  let color_name : Option String :=
    match filament_color with
    | some fc => some fc.color_name
    | none => td.color
  let ft_key : String × Option String × String :=
    (type_val, if sub_type = "" then none else some sub_type, default_brand)
  let db := { db with filament_types :=
    if db.filament_types.contains ft_key then db.filament_types
    else db.filament_types ++ [ft_key] }
  let f : Filament := {
    id := db.nextFilamentId
    tray_uuid := td.tray_uuid
    tag_uid := td.tag_uid
    ftype := type_val
    sub_type := some sub_type
    brand := default_brand
    color := color_name
    color_hex := color_hex
    diameter_hundredths := diameter
    initial_weight_grams := some initial_weight
    remaining_percent := remain_percent
    created_by := "Auto Detection"
    is_loaded_in_ams := true
    current_tray_id := td.tray_id.map PyVal.pstr
    last_loaded_date := some now
  }
  let f := update_remaining_weight f
  let db := { db with
    filaments := db.filaments ++ [dbSaveFilament f]
    nextFilamentId := db.nextFilamentId + 1 }
  (f, db)

/-- Embedding of `_match_filament_to_inventory`: exact match on `tray_uuid`,
then `tag_uid`, then `tag_id`, then the (type, sub-type, color) heuristic over
unloaded spools ordered by remaining percent and last use, then the same
heuristic over all spools, and finally auto-creation. -/
def match_filament_to_inventory (now : Int) (db : InventoryDB) (td : TrayData) :
    Filament × MatchMethod × InventoryDB :=
  let step1 : Option Filament :=
    if truthyS td.tray_uuid then
      qFirst filamentMetaLT (db.filaments.filter (fun f => f.tray_uuid == td.tray_uuid))
    else none
  match step1 with
  | some f => (f, .by_tray_uuid, db)
  | none =>
    let step2 : Option Filament :=
      if truthyS td.tag_uid then
        qFirst filamentMetaLT (db.filaments.filter (fun f => f.tag_uid == td.tag_uid))
      else none
    match step2 with
    | some f => (f, .by_tag_uid, db)
    | none =>
      let step3 : Option Filament :=
        if truthyS td.tag_id then
          qFirst filamentMetaLT (db.filaments.filter (fun f => f.tag_id == td.tag_id))
        else none
      match step3 with
      | some f => (f, .by_tag_id, db)
      | none =>
        let step45 : Option Filament :=
          if truthyS td.ttype && truthyS td.color then
            match qFirst filamentHeurLT (db.filaments.filter (fun f =>
                heuristicFilters td f && !f.is_loaded_in_ams)) with
            | some f => some f
            | none => qFirst filamentHeurLT (db.filaments.filter (heuristicFilters td))
          else none
        match step45 with
        | some f => (f, .type_sub_type_color, db)
        | none =>
          let fd := auto_create_filament now db td
          (fd.1, .auto_created, fd.2)

/-- First block of `_update_filament_status`: when the observed remaining
percent differs from the stored one, update it, recompute the remaining
weight, and stamp the last-used time. -/
def percent_refresh (now : Int) (filament : Filament) (remain_percent : Int) :
    Filament :=
  if filament.remaining_percent ≠ remain_percent then
    { update_remaining_weight { filament with remaining_percent := remain_percent } with
      last_used := some now }
  else filament

/-- Embedding of `_update_filament_status`: refresh the stored remaining
percent when it changed, and when the in-memory instance does not already
carry this slot index (a comparison between the stored value and the observed
string), unload the first other spool loaded at the slot and mark this one
loaded there with a fresh timestamp. -/
def update_filament_status (now : Int) (db : InventoryDB) (filament : Filament)
    (tray_id : String) (remain_percent : Int) : InventoryDB :=
  let f1 := percent_refresh now filament remain_percent
  if !f1.is_loaded_in_ams || f1.current_tray_id != some (PyVal.pstr tray_id) then
    let slot := PyVal.pint (strToIntD tray_id)
    let prev := qFirst filamentMetaLT (db.filaments.filter (fun g =>
      g.is_loaded_in_ams && g.current_tray_id == some slot && g.id != f1.id))
    let db1 :=
      match prev with
      | some p => saveFilament db { p with is_loaded_in_ams := false, current_tray_id := none }
      | none => db
    saveFilament db1 { f1 with
      is_loaded_in_ams := true
      current_tray_id := some (PyVal.pstr tray_id)
      last_loaded_date := some now }
  else saveFilament db f1

/-- A `models.FilamentSnapshot` row at the columns read back by the job
tracker (`tray_id`, the resolved `filament`, `remain_percent`) plus the match
method recorded at creation. -/
structure FilamentSnapshotRow where
  tray_id : Int
  filament : Option Filament := none
  remain_percent : Option Int := none
  match_method : Option MatchMethod := none
deriving DecidableEq

/-- The per-slot body of `_create_filament_snapshots`: skip observations
without a slot index, resolve through the matcher, run the status update when
a remaining percent was observed, and record a snapshot row. -/
def process_tray_observation (now : Int) (db : InventoryDB) (td : TrayData) :
    InventoryDB × Option FilamentSnapshotRow :=
  match td.tray_id with
  | none => (db, none)
  | some tid =>
    let fmd := match_filament_to_inventory now db td
    let db2 :=
      match td.remain_percent with
      | some rp => update_filament_status now fmd.2.2 fmd.1 tid rp
      | none => fmd.2.2
    (db2, some { tray_id := strToIntD tid, filament := some fmd.1,
                 remain_percent := td.remain_percent, match_method := some fmd.2.1 })

/-! ## PrinterStateAccumulator deep merge (`mqtt_client.PrinterStateAccumulator`) -/

/-- A JSON-ish Python value as carried in MQTT payload dicts. Objects are
insertion-ordered association lists, matching Python dicts. -/
inductive JVal where
  | null : JVal
  | num : Int → JVal
  | str : String → JVal
  | obj : List (String × JVal) → JVal

/-- First-match association lookup (`key in base` / `base[key]` read). -/
def jLookup : List (String × JVal) → String → Option JVal
  | [], _ => none
  | (k, v) :: rest, key => if k = key then some v else jLookup rest key

/-- Python dict assignment `base[key] = v`: replace the existing entry in
place, else append (insertion order preserved). -/
def jSetKey : List (String × JVal) → String → JVal → List (String × JVal)
  | [], key, v => [(key, v)]
  | (k, w) :: rest, key, v =>
    if k = key then (key, v) :: rest else (k, w) :: jSetKey rest key v

mutual

/-- One key step of `_deep_merge`: when both the present entry and the update
value are dicts, merge recursively; otherwise overwrite. -/
def mergeKey (base : List (String × JVal)) (key : String) (v : JVal) :
    List (String × JVal) :=
  match jLookup base key, v with
  | some (.obj bo), .obj uo => jSetKey base key (.obj (mergeObj bo uo))
  | _, _ => jSetKey base key v
termination_by sizeOf v
decreasing_by simp_wf

/-- Embedding of `PrinterStateAccumulator._deep_merge`: fold the update's
entries into the base dict in order. -/
def mergeObj (base : List (String × JVal)) : List (String × JVal) →
    List (String × JVal)
  | [] => base
  | (k, v) :: rest => mergeObj (mergeKey base k v) rest
termination_by upd => sizeOf upd
decreasing_by all_goals simp_wf <;> omega

end

mutual

/-- Well-formedness of a value parsed from JSON: every nested object has
pairwise-distinct keys (Python dicts cannot carry duplicates). -/
def jWF : JVal → Bool
  | .null => true
  | .num _ => true
  | .str _ => true
  | .obj fs => jWFFields fs
termination_by v => sizeOf v
decreasing_by all_goals simp_wf

/-- Well-formedness of an object's field list. -/
def jWFFields : List (String × JVal) → Bool
  | [] => true
  | (k, v) :: rest => !(rest.any (fun kv => kv.1 == k)) && jWF v && jWFFields rest
termination_by fs => sizeOf fs
decreasing_by all_goals simp_wf <;> omega

end

/-! ## Print-job lifecycle tracker (`_track_print_job`, `_finalize_print_job`,
`PrintJob.calculate_duration`, `FilamentUsage.calculate_consumed`) -/

/-- A `PrinterMetrics` row at the fields the tracker reads: primary key,
collection timestamp, and the `filament_snapshots` created for it in the same
cycle (immutable once the cycle ends). -/
structure PrinterMetric where
  id : Nat
  timestamp : Int
  filament_snapshots : List FilamentSnapshotRow := []
deriving DecidableEq

/-- The fields of the flattened transport snapshot the tracker consumes. -/
structure SnapshotData where
  gcode_state : Option String := none
  subtask_name : Option String := none
  gcode_file : Option String := none
  total_layer_num : Option Int := none
  print_percent : Option Int := none
  tray_now : Option String := none
deriving DecidableEq

/-- A `models.PrintJob` row. The start metric is embedded by value (metric
rows are immutable); the end metric is referenced by primary key. -/
structure PrintJob where
  id : Nat
  project_name : Option String := none
  gcode_file : Option String := none
  start_time : Int := 0
  start_metric : Option PrinterMetric := none
  total_layers : Option Int := none
  completion_percent : Int := 0
  end_time : Option Int := none
  end_metric_id : Option Nat := none
  final_status : Option String := none
  duration_minutes : Option Int := none
deriving DecidableEq

/-- Embedding of `PrintJob.calculate_duration`:
`duration_minutes = int((end_time - start_time).total_seconds() / 60)` when
the end time is set (datetimes are always truthy). -/
def calculate_duration (job : PrintJob) : PrintJob :=
  match job.end_time with
  | some e => { job with duration_minutes := some (Int.tdiv (e - job.start_time) 60) }
  | none => job

/-- A `models.FilamentUsage` row; the consuming spool is embedded by value
(its initial weight feeds the grams computation). -/
structure FilamentUsage where
  print_job_id : Nat
  filament : Filament
  tray_id : Int
  starting_percent : Int
  ending_percent : Option Int := none
  consumed_percent : Option Int := none
  consumed_grams : Option Int := none
  is_primary : Bool := true
deriving DecidableEq

/-- Embedding of `FilamentUsage.calculate_consumed`: when the ending percent
is non-null, `consumed = starting - ending`, and when the spool's initial
weight is truthy, `grams = int(weight * (consumed / 100.0))`. -/
def calculate_consumed (u : FilamentUsage) : FilamentUsage :=
  match u.ending_percent with
  | some e =>
    let c := u.starting_percent - e
    let u := { u with consumed_percent := some c }
    match u.filament.initial_weight_grams with
    | some w => if w ≠ 0 then { u with consumed_grams := some (Int.tdiv (w * c) 100) } else u
    | none => u
  | none => u

/-- Python `start_snap.remain_percent or 100`: `None` and `0` both fall back
to the default. -/
def pyOrInt (v : Option Int) (d : Int) : Int :=
  match v with
  | some x => if x = 0 then d else x
  | none => d

/-- The tracker's mutable state, as held on the command object, together with
the persisted `PrintJob` and `FilamentUsage` rows it writes. -/
structure TrackerState where
  current_print_job : Option PrintJob := none
  last_gcode_state : Option String := none
  last_subtask_name : Option String := none
  trays_used : List Int := []
  jobs : List PrintJob := []
  usages : List FilamentUsage := []
  nextJobId : Nat := 0
deriving DecidableEq

/-- Embedding of `_is_print_starting`. -/
def is_print_starting (last_subtask_name : Option String)
    (gcode_state subtask_name : Option String) : Bool :=
  let is_printing := gcode_state != some "FINISH" && gcode_state != some "IDLE" &&
    gcode_state != some "FAILED" && gcode_state != none && gcode_state != some ""
  let has_new_job := truthyS subtask_name && subtask_name != last_subtask_name
  is_printing && has_new_job

/-- Embedding of `_is_print_ending`: edge into `FINISH`/`FAILED` from a state
that was not already terminal. -/
def is_print_ending (last_gcode_state gcode_state : Option String) : Bool :=
  (gcode_state == some "FINISH" || gcode_state == some "FAILED") &&
  !(last_gcode_state == some "FINISH" || last_gcode_state == some "FAILED")

/-- `PrintJob.save()`: update the row with the same primary key, else insert. -/
def saveJobRow (rows : List PrintJob) (j : PrintJob) : List PrintJob :=
  if rows.any (fun r => r.id == j.id) then
    rows.map (fun r => if r.id == j.id then j else r)
  else rows ++ [j]

/-- The active-tray bookkeeping of `_track_print_job`: record the reported
tray index into the used set, ignoring missing/empty/sentinel/non-numeric
tokens and indices outside 0..15. -/
def trackTrayNow (st : TrackerState) (snapshot : SnapshotData) : TrackerState :=
  let tray_now := snapshot.tray_now.getD ""
  if tray_now != "" && tray_now != "255" then
    match pyParseInt tray_now with
    | some tid =>
      if 0 ≤ tid ∧ tid ≤ 15 then
        if st.trays_used.contains tid then st
        else { st with trays_used := st.trays_used ++ [tid] }
      else st
    | none => st
  else st

/-- The per-tray body of the consumption loop in `_finalize_print_job`: look
up the start snapshot with a resolved spool at this tray, determine the ending
percent from the end metric's snapshot for the same spool and tray, and build
the `FilamentUsage` row. -/
def usageForTray (job : PrintJob) (trays_count : Nat)
    (start_metric metric : PrinterMetric) (tray_id : Int) : Option FilamentUsage :=
  match start_metric.filament_snapshots.find? (fun s =>
      s.tray_id == tray_id && s.filament.isSome) with
  | none => none
  | some start_snap =>
    match start_snap.filament with
    | none => none
    | some fil =>
      let end_snap := metric.filament_snapshots.find? (fun s =>
        (s.filament.map Filament.id) == some fil.id && s.tray_id == tray_id)
      let u : FilamentUsage := {
        print_job_id := job.id
        filament := fil
        tray_id := tray_id
        starting_percent := pyOrInt start_snap.remain_percent 100
        ending_percent := end_snap.bind (fun s => s.remain_percent)
        is_primary := trays_count == 1
      }
      some (calculate_consumed u)

/-- Embedding of `_finalize_print_job`: stamp the open job's end fields from
this cycle's record, compute its duration, save it, create one usage row per
tracked tray that has a resolved start snapshot (skipped entirely when there
is no start metric or no tracked tray), and clear the open-job state. -/
def finalize_print_job (st : TrackerState) (metric : PrinterMetric)
    (snapshot : SnapshotData) : TrackerState :=
  match st.current_print_job with
  | none => st
  | some job =>
    let job := calculate_duration { job with
      end_time := some metric.timestamp
      end_metric_id := some metric.id
      final_status := snapshot.gcode_state
      completion_percent := snapshot.print_percent.getD 0 }
    let jobs := saveJobRow st.jobs job
    let new_usages : List FilamentUsage :=
      match job.start_metric with
      | none => []
      | some sm =>
        if st.trays_used.isEmpty then []
        else st.trays_used.filterMap (usageForTray job st.trays_used.length sm metric)
    { st with
      jobs := jobs
      usages := st.usages ++ new_usages
      current_print_job := none
      trays_used := [] }

/-- The job-creation block of `_track_print_job`: create and open a new
`PrintJob` anchored at this cycle's record and clear the used-tray set. -/
def open_print_job (st : TrackerState) (metric : PrinterMetric)
    (snapshot : SnapshotData) : TrackerState :=
  let job : PrintJob := {
    id := st.nextJobId
    project_name := snapshot.subtask_name
    gcode_file := snapshot.gcode_file
    start_time := metric.timestamp
    start_metric := some metric
    total_layers := snapshot.total_layer_num
    completion_percent := snapshot.print_percent.getD 0 }
  { st with
    current_print_job := some job
    jobs := st.jobs ++ [job]
    trays_used := []
    nextJobId := st.nextJobId + 1 }

/-- Embedding of `_track_print_job`: on a start edge, finalize any job still
open, then open the new one; while a job is open, track the active tray; on a
terminal edge, finalize; finally remember this cycle's state strings. -/
def track_print_job (st : TrackerState) (metric : PrinterMetric)
    (snapshot : SnapshotData) : TrackerState :=
  let st1 :=
    if is_print_starting st.last_subtask_name snapshot.gcode_state snapshot.subtask_name then
      let stf :=
        if st.current_print_job.isSome then finalize_print_job st metric snapshot else st
      open_print_job stf metric snapshot
    else st
  let st2 := if st1.current_print_job.isSome then trackTrayNow st1 snapshot else st1
  let st3 :=
    if is_print_ending st.last_gcode_state snapshot.gcode_state &&
        st2.current_print_job.isSome then
      finalize_print_job st2 metric snapshot
    else st2
  { st3 with
    last_gcode_state := snapshot.gcode_state
    last_subtask_name := snapshot.subtask_name }

/-! ## Retention cleanup (`bambu_cleanup.handle`) -/

/-- A `PrinterMetrics` row at the columns cleanup touches. -/
structure CleanupMetricRow where
  id : Nat
  timestamp : Int
deriving DecidableEq

/-- A `FilamentSnapshot` row at the columns cleanup touches. -/
structure CleanupSnapRow where
  id : Nat
  printer_metric_id : Nat
deriving DecidableEq

/-- A `PrintJob` row at the columns cleanup touches (`started_jobs` and
`ended_jobs` reverse relations come from these foreign keys). -/
structure CleanupJobRow where
  id : Nat
  start_metric_id : Option Nat := none
  end_metric_id : Option Nat := none
deriving DecidableEq

/-- Timestamp of a snapshot's owning metric (`printer_metric__timestamp`). -/
def cleanupMetricTimestamp (metrics : List CleanupMetricRow) (mid : Nat) : Option Int :=
  (metrics.find? (fun m => m.id == mid)).map (fun m => m.timestamp)

/-- The `old_snapshots` queryset: snapshots whose metric timestamp is before
the cutoff, excluding (under `--keep-print-jobs`) snapshots whose metric is
some job's start or end metric. -/
def oldSnapshotsSelect (metrics : List CleanupMetricRow) (jobs : List CleanupJobRow)
    (snaps : List CleanupSnapRow) (cutoff : Int) (keep_print_jobs : Bool) :
    List CleanupSnapRow :=
  let base := snaps.filter (fun s =>
    match cleanupMetricTimestamp metrics s.printer_metric_id with
    | some t => decide (t < cutoff)
    | none => false)
  if keep_print_jobs then
    (base.filter (fun s =>
      !(jobs.any (fun j => j.start_metric_id == some s.printer_metric_id)))).filter
      (fun s => !(jobs.any (fun j => j.end_metric_id == some s.printer_metric_id)))
  else base

/-- The snapshot-deletion phase of cleanup: the batched loop deletes exactly
the rows whose ids the `old_snapshots` queryset selects; these are the rows
remaining afterwards. -/
def cleanupSnapshotPhase (metrics : List CleanupMetricRow) (jobs : List CleanupJobRow)
    (snaps : List CleanupSnapRow) (cutoff : Int) (keep_print_jobs : Bool) :
    List CleanupSnapRow :=
  let selected := oldSnapshotsSelect metrics jobs snaps cutoff keep_print_jobs
  snaps.filter (fun s => !(selected.any (fun d => d.id == s.id)))

/-! ## Collection cycle (`handle` run-once path, `_collect_printer_data`) -/

/-- The collector's cycle counters, plus the count of metric records that
reached the database (the atomic transaction means a failed cycle writes
nothing). -/
structure CollectorState where
  error_count : Nat := 0
  success_count : Nat := 0
  mqtt_connect_errors : Nat := 0
  metrics_written : Nat := 0
deriving DecidableEq

/-- What one cycle encounters, abstracting the transport and the store:
the transport yields no snapshot yet; a snapshot arrives and the cycle's
processing and writes succeed; or an exception is raised anywhere inside the
cycle body (transport fault or persistence fault). -/
inductive CycleEvent where
  | transportUnavailable
  | goodSnapshot
  | processingError
deriving DecidableEq

/-- The body of `_collect_printer_data` inside its `try`: a missing snapshot
only bumps the connection-warning counter and returns; a good snapshot runs
the transactional writes and bumps the success counter; an exception
propagates out of the body. -/
def cycleBody (st : CollectorState) (ev : CycleEvent) : Except String CollectorState :=
  match ev with
  | .transportUnavailable =>
    .ok { st with mqtt_connect_errors := st.mqtt_connect_errors + 1 }
  | .goodSnapshot =>
    .ok { st with
      success_count := st.success_count + 1
      metrics_written := st.metrics_written + 1 }
  | .processingError => .error "Error collecting printer data"

/-- Embedding of `_collect_printer_data`: the whole body sits inside
`try/except Exception`, so every cycle-level exception is caught, counted in
`error_count`, and swallowed. -/
def collect_printer_data (st : CollectorState) (ev : CycleEvent) : CollectorState :=
  match cycleBody st ev with
  | .ok st2 => st2
  | .error _ => { st with error_count := st.error_count + 1 }

/-- The run-once path of `handle` after successful initialisation:
`self._collect_printer_data()` under `try/except Exception: raise
CommandError` — a `CommandError` result is the nonzero-equivalent failure
signal. Because `collect_printer_data` is total (its own handler swallows
cycle faults), this path always returns success. -/
def handleRunOnce (st : CollectorState) (ev : CycleEvent) :
    Except String CollectorState :=
  .ok (collect_printer_data st ev)

/-! ## Helper lemmas -/

theorem qFirst_eq_none {lt : α → α → Bool} {l : List α} :
    qFirst lt l = none ↔ l = [] := by
  cases l with
  | nil => simp [qFirst]
  | cons a rest =>
    have hne : qFirst lt (a :: rest) ≠ none := by
      cases hq : qFirst lt rest with
      | none => simp [qFirst, hq]
      | some b => by_cases hb : lt b a <;> simp [qFirst, hq, hb]
    constructor
    · intro h; exact absurd h hne
    · intro h; cases h

theorem qFirst_mem {lt : α → α → Bool} :
    ∀ {l : List α} {x : α}, qFirst lt l = some x → x ∈ l := by
  intro l
  induction l with
  | nil => intro x h; simp [qFirst] at h
  | cons a rest ih =>
    intro x h
    cases hq : qFirst lt rest with
    | none =>
      simp only [qFirst, hq, Option.some.injEq] at h
      simp [h]
    | some b =>
      simp only [qFirst, hq] at h
      by_cases hb : lt b a
      · simp only [hb, if_true, Option.some.injEq] at h
        subst h
        exact List.mem_cons_of_mem a (ih hq)
      · simp only [hb, if_false, Bool.false_eq_true, Option.some.injEq] at h
        simp [h]

theorem qFirst_min {lt : α → α → Bool}
    (hasymm : ∀ a b, lt a b = true → lt b a = false)
    (hnegtrans : ∀ a b c, lt a b = false → lt b c = false → lt a c = false) :
    ∀ {l : List α} {x : α}, qFirst lt l = some x → ∀ y ∈ l, lt y x = false := by
  have hirrefl : ∀ a, lt a a = false := by
    intro a
    cases h : lt a a
    · rfl
    · exact absurd (hasymm a a h) (by simp [h])
  intro l
  induction l with
  | nil => intro x h; simp [qFirst] at h
  | cons a rest ih =>
    intro x h y hy
    cases hq : qFirst lt rest with
    | none =>
      have hre : rest = [] := qFirst_eq_none.mp hq
      subst hre
      simp only [qFirst, Option.some.injEq] at h
      subst h
      rcases List.mem_singleton.mp hy with rfl
      exact hirrefl y
    | some b =>
      simp only [qFirst, hq] at h
      by_cases hb : lt b a
      · simp only [hb, if_true, Option.some.injEq] at h
        subst h
        rcases List.mem_cons.mp hy with rfl | hyr
        · exact hasymm _ _ hb
        · exact ih hq y hyr
      · simp only [hb, if_false, Bool.false_eq_true, Option.some.injEq] at h
        subst h
        rcases List.mem_cons.mp hy with rfl | hyr
        · exact hirrefl y
        · exact hnegtrans y b a (ih hq y hyr) (by simpa using hb)

theorem trackTrayNow_jobs (st : TrackerState) (s : SnapshotData) :
    (trackTrayNow st s).jobs = st.jobs ∧
    (trackTrayNow st s).usages = st.usages ∧
    (trackTrayNow st s).current_print_job = st.current_print_job := by
  simp only [trackTrayNow]
  split
  · split
    · split
      · split <;> simp
      · simp
    · simp
  · simp

/-! ## C9: color-code normalization -/

/-- Claim C9: color-code normalization maps an 8-hex-digit observed code to
its first 6 digits upper-cased ("FF6A13FF" to "FF6A13", "000000FF" to
"000000"), and a 6-character input passes through unchanged apart from
case-folding to upper case. -/
theorem c9_color_code_normalization :
    (∀ s : String, s.length = 8 →
      strip_color_padding (some s) = some (pyUpper (pySlice s 6))) ∧
    (∀ s : String, s.length = 6 → strip_color_padding (some s) = some (pyUpper s)) ∧
    strip_color_padding (some "FF6A13FF") = some "FF6A13" ∧
    strip_color_padding (some "000000FF") = some "000000" := by
  refine ⟨?_, ?_, by decide, by decide⟩
  · intro s h
    have hne : s ≠ "" := by
      intro he; rw [he] at h; exact absurd h (by decide)
    simp [strip_color_padding, hne, h]
  · intro s h
    have hne : s ≠ "" := by
      intro he; rw [he] at h; exact absurd h (by decide)
    have h8 : s.length ≠ 8 := by omega
    have h6 : 6 ≤ s.length := by omega
    have hsl : pySlice s 6 = s := by
      unfold pySlice
      have : s.data.take 6 = s.data := List.take_of_length_le (le_of_eq h)
      rw [this]
    simp [strip_color_padding, hne, h8, h6, hsl]

/-- Witness for C9 at a concrete 8-character and a concrete 6-character input. -/
theorem c9_color_code_normalization_witness :
    strip_color_padding (some "ff6a13ff") = some "FF6A13" ∧
    strip_color_padding (some "00ff00") = some "00FF00" :=
  ⟨(c9_color_code_normalization.1 "ff6a13ff" (by decide)).trans (by decide),
   (c9_color_code_normalization.2.1 "00ff00" (by decide)).trans (by decide)⟩

/-! ## C7: run-once failure signalling -/

/-- Claim C7 counterexample: a run-once invocation whose single cycle raises a
processing exception still returns success — `_collect_printer_data` catches
every cycle-level exception itself and only counts it, so the claimed failure
signal never materialises. -/
theorem c7_run_once_counterexample :
    handleRunOnce {} CycleEvent.processingError =
      Except.ok { error_count := 1 } := rfl

/-- Claim C7 as amended: a run-once invocation never returns a failure signal
for any cycle event — a cycle-level exception is swallowed inside the cycle
and only increments the error counter; when the transport yields no snapshot
the cycle only increments the connection-warning counter, writes nothing, and
also returns success. -/
theorem c7_run_once_amended (st : CollectorState) (ev : CycleEvent) :
    (∃ st2, handleRunOnce st ev = Except.ok st2) ∧
    handleRunOnce st CycleEvent.transportUnavailable =
      Except.ok { st with mqtt_connect_errors := st.mqtt_connect_errors + 1 } ∧
    handleRunOnce st CycleEvent.processingError =
      Except.ok { st with error_count := st.error_count + 1 } :=
  ⟨⟨collect_printer_data st ev, rfl⟩, rfl, rfl⟩

/-! ## C8: cleanup retention -/

/-- Claim C8: for every cutoff, the snapshot-deletion phase leaves every
snapshot whose metric timestamp is at or after the cutoff untouched, and with
the keep-print-jobs flag set it also leaves every snapshot whose metric is
referenced as some job's start or end metric untouched. -/
theorem c8_cleanup_retention (metrics : List CleanupMetricRow)
    (jobs : List CleanupJobRow) (snaps : List CleanupSnapRow) (cutoff : Int)
    (keep : Bool) (s : CleanupSnapRow)
    (hid : (snaps.map (fun r => r.id)).Nodup) (hs : s ∈ snaps) :
    ((∀ t, cleanupMetricTimestamp metrics s.printer_metric_id = some t → cutoff ≤ t) →
      s ∈ cleanupSnapshotPhase metrics jobs snaps cutoff keep) ∧
    ((keep = true ∧
      ((jobs.any (fun j => j.start_metric_id == some s.printer_metric_id)) = true ∨
       (jobs.any (fun j => j.end_metric_id == some s.printer_metric_id)) = true)) →
      s ∈ cleanupSnapshotPhase metrics jobs snaps cutoff keep) := by
  have hsel_sub : ∀ d ∈ oldSnapshotsSelect metrics jobs snaps cutoff keep, d ∈ snaps := by
    intro d hd
    unfold oldSnapshotsSelect at hd
    by_cases hk : keep
    · simp only [hk, if_true] at hd
      exact (List.mem_filter.mp (List.mem_filter.mp (List.mem_filter.mp hd).1).1).1
    · simp only [hk, if_false] at hd
      exact (List.mem_filter.mp hd).1
  have hsurvives : s ∉ oldSnapshotsSelect metrics jobs snaps cutoff keep →
      s ∈ cleanupSnapshotPhase metrics jobs snaps cutoff keep := by
    intro hnot
    unfold cleanupSnapshotPhase
    refine List.mem_filter.mpr ⟨hs, ?_⟩
    simp only [Bool.not_eq_eq_eq_not, Bool.not_true, List.any_eq_false]
    intro d hd
    simp only [beq_iff_eq, decide_eq_false_iff_not]
    intro hde
    have hds : d ∈ snaps := hsel_sub d hd
    have : d = s := List.inj_on_of_nodup_map hid hds hs hde
    exact hnot (this ▸ hd)
  constructor
  · intro hts
    refine hsurvives ?_
    intro hmem
    unfold oldSnapshotsSelect at hmem
    have hbase : s ∈ snaps.filter (fun r =>
        match cleanupMetricTimestamp metrics r.printer_metric_id with
        | some t => decide (t < cutoff)
        | none => false) := by
      by_cases hk : keep
      · simp only [hk, if_true] at hmem
        exact (List.mem_filter.mp (List.mem_filter.mp hmem).1).1
      · simpa only [hk, if_false] using hmem
    have hp := (List.mem_filter.mp hbase).2
    cases hmt : cleanupMetricTimestamp metrics s.printer_metric_id with
    | none => rw [hmt] at hp; exact absurd hp (by simp)
    | some t =>
      rw [hmt] at hp
      have h1 : t < cutoff := by simpa using hp
      have h2 : cutoff ≤ t := hts t hmt
      omega
  · rintro ⟨hk, href⟩
    refine hsurvives ?_
    intro hmem
    unfold oldSnapshotsSelect at hmem
    simp only [hk, if_true] at hmem
    have hm1 := List.mem_filter.mp hmem
    have hm2 := List.mem_filter.mp hm1.1
    rcases href with h | h
    · have := hm2.2
      simp only [Bool.not_eq_eq_eq_not, Bool.not_true] at this
      exact absurd h (by simp [this])
    · have := hm1.2
      simp only [Bool.not_eq_eq_eq_not, Bool.not_true] at this
      exact absurd h (by simp [this])

/-- Witness for C8: one metric at time 100 anchoring a job, one snapshot on
it; with cutoff 50 the snapshot is newer than the cutoff and survives, and
with cutoff 200 and the keep flag it survives through the job reference. -/
theorem c8_cleanup_retention_witness :
    (⟨7, 1⟩ : CleanupSnapRow) ∈ cleanupSnapshotPhase [⟨1, 100⟩]
      [⟨3, some 1, none⟩] [⟨7, 1⟩] 50 false ∧
    (⟨7, 1⟩ : CleanupSnapRow) ∈ cleanupSnapshotPhase [⟨1, 100⟩]
      [⟨3, some 1, none⟩] [⟨7, 1⟩] 200 true := by
  constructor
  · refine (c8_cleanup_retention [⟨1, 100⟩] [⟨3, some 1, none⟩] [⟨7, 1⟩] 50 false
      ⟨7, 1⟩ (by decide) (by decide)).1 ?_
    intro t ht
    have : some (100 : Int) = some t := by
      rw [show cleanupMetricTimestamp [⟨1, 100⟩] 1 = some 100 from rfl] at ht
      exact ht
    cases this
    decide
  · exact (c8_cleanup_retention [⟨1, 100⟩] [⟨3, some 1, none⟩] [⟨7, 1⟩] 200 true
      ⟨7, 1⟩ (by decide) (by decide)).2 ⟨rfl, Or.inl (by decide)⟩

/-! ## C3 and C4: job lifecycle -/

/-- Claim C3: feeding [idle, printing "A", printing "A", finished] creates
exactly one PrintJob named "A" with start time the first printing record's
timestamp, end time the finished record's timestamp, and duration their
difference in whole minutes; and finalization is edge-triggered — a terminal
report whose predecessor was already terminal changes no job or usage row. -/
theorem c3_job_lifecycle (t1 t2 t3 t4 : Int) :
    track_print_job (track_print_job (track_print_job (track_print_job {}
        { id := 1, timestamp := t1 } { gcode_state := some "IDLE" })
        { id := 2, timestamp := t2 }
        { gcode_state := some "RUNNING", subtask_name := some "A" })
        { id := 3, timestamp := t3 }
        { gcode_state := some "RUNNING", subtask_name := some "A" })
        { id := 4, timestamp := t4 }
        { gcode_state := some "FINISH", subtask_name := some "A" } =
      { current_print_job := none, last_gcode_state := some "FINISH",
        last_subtask_name := some "A", trays_used := [],
        jobs := [(
          { id := 0, project_name := some "A",
            start_time := t2, start_metric := some { id := 2, timestamp := t2 },
            end_time := some t4, end_metric_id := some 4,
            final_status := some "FINISH",
            duration_minutes := some (Int.tdiv (t4 - t2) 60) } : PrintJob)],
        usages := [], nextJobId := 1 } ∧
    (∀ (st : TrackerState) (m : PrinterMetric) (s : SnapshotData),
      (s.gcode_state = some "FINISH" ∨ s.gcode_state = some "FAILED") →
      (st.last_gcode_state = some "FINISH" ∨ st.last_gcode_state = some "FAILED") →
      (track_print_job st m s).jobs = st.jobs ∧
      (track_print_job st m s).usages = st.usages) := by
  constructor
  · rfl
  · intro st m s hs hlast
    have hstart : is_print_starting st.last_subtask_name s.gcode_state s.subtask_name
        = false := by
      rcases hs with h | h <;> simp [is_print_starting, h]
    have hend : is_print_ending st.last_gcode_state s.gcode_state = false := by
      rcases hlast with h | h <;> simp [is_print_ending, h]
    simp only [track_print_job, hstart, hend, Bool.false_eq_true, if_false,
      Bool.false_and]
    by_cases hc : st.current_print_job.isSome <;>
      simp [hc, (trackTrayNow_jobs st s).1, (trackTrayNow_jobs st s).2.1]

/-- Witness for C3's edge-trigger conjunct at a concrete state and record. -/
theorem c3_job_lifecycle_witness :
    (track_print_job { last_gcode_state := some "FINISH" }
      { id := 9, timestamp := 400 } { gcode_state := some "FINISH" }).jobs = [] :=
  ((c3_job_lifecycle 0 0 0 0).2 { last_gcode_state := some "FINISH" }
    { id := 9, timestamp := 400 } { gcode_state := some "FINISH" }
    (Or.inl rfl) (Or.inl rfl)).1

/-- Claim C4: feeding [printing "A", printing "B"] with distinct subtask names
and no intervening terminal state finalizes job "A" — end time, end metric and
final status taken from the record carrying "B" — before opening job "B",
leaving exactly one open job. -/
theorem c4_job_reentrancy (t1 t2 : Int) :
    track_print_job (track_print_job {}
        { id := 1, timestamp := t1 }
        { gcode_state := some "RUNNING", subtask_name := some "A" })
        { id := 2, timestamp := t2 }
        { gcode_state := some "RUNNING", subtask_name := some "B" } =
      { current_print_job := some (
          { id := 1, project_name := some "B",
            start_time := t2,
            start_metric := some { id := 2, timestamp := t2 } } : PrintJob),
        last_gcode_state := some "RUNNING", last_subtask_name := some "B",
        trays_used := [],
        jobs := [(
          { id := 0, project_name := some "A", start_time := t1,
            start_metric := some { id := 1, timestamp := t1 },
            end_time := some t2, end_metric_id := some 2,
            final_status := some "RUNNING",
            duration_minutes := some (Int.tdiv (t2 - t1) 60) } : PrintJob), (
          { id := 1, project_name := some "B", start_time := t2,
            start_metric := some { id := 2, timestamp := t2 } } : PrintJob)],
        usages := [], nextJobId := 2 } ∧
    ((track_print_job (track_print_job {}
        { id := 1, timestamp := t1 }
        { gcode_state := some "RUNNING", subtask_name := some "A" })
        { id := 2, timestamp := t2 }
        { gcode_state := some "RUNNING", subtask_name := some "B" }).jobs.filter
      (fun j => j.end_time == none)).length = 1 :=
  ⟨rfl, rfl⟩

/-! ## C10: used-slot set invariant -/

theorem trackTrayNow_bounds (st : TrackerState) (s : SnapshotData)
    (h : ∀ u ∈ st.trays_used, 0 ≤ u ∧ u ≤ 15) :
    ∀ u ∈ (trackTrayNow st s).trays_used, 0 ≤ u ∧ u ≤ 15 := by
  simp only [trackTrayNow]
  split
  · split
    · rename_i tid _
      split
      · rename_i hb
        split
        · exact h
        · intro u hu
          rcases List.mem_append.mp hu with h1 | h1
          · exact h u h1
          · rcases List.mem_singleton.mp h1 with rfl
            exact hb
      · exact h
    · exact h
  · exact h

theorem finalize_trays (st : TrackerState) (m : PrinterMetric) (s : SnapshotData) :
    (finalize_print_job st m s).trays_used = [] ∨
    (finalize_print_job st m s).trays_used = st.trays_used := by
  rcases hc : st.current_print_job with _ | job <;>
    simp [finalize_print_job, hc]

theorem track_print_job_bounds (st : TrackerState) (m : PrinterMetric)
    (s : SnapshotData) (h : ∀ u ∈ st.trays_used, 0 ≤ u ∧ u ≤ 15) :
    ∀ u ∈ (track_print_job st m s).trays_used, 0 ≤ u ∧ u ≤ 15 := by
  have hfin : ∀ (st2 : TrackerState), (∀ u ∈ st2.trays_used, 0 ≤ u ∧ u ≤ 15) →
      ∀ u ∈ (finalize_print_job st2 m s).trays_used, 0 ≤ u ∧ u ≤ 15 := by
    intro st2 h2 u hu
    rcases finalize_trays st2 m s with he | he <;> rw [he] at hu
    · simp at hu
    · exact h2 u hu
  have hopen : ∀ (st2 : TrackerState),
      ∀ u ∈ (open_print_job st2 m s).trays_used, 0 ≤ u ∧ u ≤ 15 := by
    intro st2 u hu
    simp [open_print_job] at hu
  simp only [track_print_job]
  have h1 : ∀ u ∈ (if is_print_starting st.last_subtask_name s.gcode_state
      s.subtask_name then
        open_print_job (if st.current_print_job.isSome then
          finalize_print_job st m s else st) m s
      else st).trays_used, 0 ≤ u ∧ u ≤ 15 := by
    split
    · exact hopen _
    · exact h
  have h2 : ∀ (st1 : TrackerState), (∀ u ∈ st1.trays_used, 0 ≤ u ∧ u ≤ 15) →
      ∀ u ∈ (if st1.current_print_job.isSome then trackTrayNow st1 s
        else st1).trays_used, 0 ≤ u ∧ u ≤ 15 := by
    intro st1 hs1
    split
    · exact trackTrayNow_bounds st1 s hs1
    · exact hs1
  have h3 : ∀ (st2 : TrackerState), (∀ u ∈ st2.trays_used, 0 ≤ u ∧ u ≤ 15) →
      ∀ u ∈ (if is_print_ending st.last_gcode_state s.gcode_state &&
          st2.current_print_job.isSome then finalize_print_job st2 m s
        else st2).trays_used, 0 ≤ u ∧ u ≤ 15 := by
    intro st2 hs2
    split
    · exact hfin _ hs2
    · exact hs2
  exact h3 _ (h2 _ h1)

/-- Claim C10: the tracker's used-slot set only ever holds integers 0..15
along any run from the initial state; an active-tray token that is missing,
empty, the sentinel "255", non-numeric, or out of range leaves the set
unchanged; and the set is emptied by finalization and by opening a job. -/
theorem c10_trays_used_invariant :
    (∀ (steps : List (PrinterMetric × SnapshotData)),
      ∀ u ∈ (steps.foldl (fun st p => track_print_job st p.1 p.2)
        ({} : TrackerState)).trays_used, 0 ≤ u ∧ u ≤ 15) ∧
    (∀ (st : TrackerState) (s : SnapshotData),
      (s.tray_now.getD "" = "" ∨ s.tray_now.getD "" = "255" ∨
        pyParseInt (s.tray_now.getD "") = none ∨
        (∃ tid, pyParseInt (s.tray_now.getD "") = some tid ∧ ¬(0 ≤ tid ∧ tid ≤ 15))) →
      trackTrayNow st s = st) ∧
    (∀ (st : TrackerState) (m : PrinterMetric) (s : SnapshotData),
      st.current_print_job.isSome = true →
      (finalize_print_job st m s).trays_used = []) ∧
    (∀ (st : TrackerState) (m : PrinterMetric) (s : SnapshotData),
      (open_print_job st m s).trays_used = []) := by
  refine ⟨?_, ?_, ?_, ?_⟩
  · intro steps
    have hgen : ∀ (init : TrackerState), (∀ u ∈ init.trays_used, 0 ≤ u ∧ u ≤ 15) →
        ∀ u ∈ (steps.foldl (fun st p => track_print_job st p.1 p.2)
          init).trays_used, 0 ≤ u ∧ u ≤ 15 := by
      induction steps with
      | nil => intro init h; exact h
      | cons p rest ih =>
        intro init h
        exact ih _ (track_print_job_bounds init p.1 p.2 h)
    exact hgen {} (by simp)
  · intro st s hcase
    rcases hcase with h | h | h | ⟨tid, hp, hb⟩
    · simp [trackTrayNow, h]
    · simp [trackTrayNow, h]
    · simp only [trackTrayNow, h]
      split <;> rfl
    · simp only [trackTrayNow, hp]
      split <;> simp [hb]
  · intro st m s hc
    rcases hc2 : st.current_print_job with _ | job
    · rw [hc2] at hc; exact absurd hc (by simp)
    · simp [finalize_print_job, hc2]
  · intro st m s
    simp [open_print_job]

/-- Witness for C10: the sentinel token "255" leaves a concrete set unchanged,
and finalizing a concrete open job empties its set. -/
theorem c10_trays_used_invariant_witness :
    trackTrayNow { trays_used := [3] } { tray_now := some "255" } =
      { trays_used := [3] } ∧
    (finalize_print_job
      { current_print_job := some { id := 0 }, trays_used := [3] }
      { id := 1, timestamp := 5 } {}).trays_used = [] :=
  ⟨c10_trays_used_invariant.2.1 { trays_used := [3] } { tray_now := some "255" }
      (Or.inr (Or.inl rfl)),
   c10_trays_used_invariant.2.2.1
      { current_print_job := some { id := 0 }, trays_used := [3] }
      { id := 1, timestamp := 5 } {} rfl⟩

/-! ## C1: matcher priority -/

theorem filamentHeurLT_asymm (f g : Filament) :
    filamentHeurLT f g = true → filamentHeurLT g f = false := by
  rcases hf : f.last_used with _ | x <;> rcases hg : g.last_used with _ | y <;>
    simp [filamentHeurLT, optLTBy, hf, hg] <;> omega

theorem filamentHeurLT_negtrans (f g h : Filament) :
    filamentHeurLT f g = false → filamentHeurLT g h = false →
    filamentHeurLT f h = false := by
  rcases hf : f.last_used with _ | x <;> rcases hg : g.last_used with _ | y <;>
    rcases hh : h.last_used with _ | z <;>
    simp [filamentHeurLT, optLTBy, hf, hg, hh] <;> omega

theorem filter_and_eq_nil {p q : α → Bool} {l : List α} (h : l.filter p = []) :
    l.filter (fun a => p a && q a) = [] := by
  rw [List.filter_eq_nil_iff] at *
  intro a ha
  simp [h a ha]

/-- Claim C1: the matcher resolves in a fixed order with the first hit
winning — exact `tray_uuid` first (so identity beats any heuristic match, and
a unique matching spool A is always the result); when the `tray_uuid` step
misses, a spool uniquely matching the chip UID `tag_uid` is the result with
method `by_tag_uid`; when both of those miss, a spool uniquely matching the
user tag `tag_id` is the result with method `by_tag_id` (each of these holds
for an arbitrary inventory, so a hit at steps 2 or 3 beats any heuristic
candidate); the method is `auto_created`
exactly when every identity lookup and the (type, sub-type, color) heuristic
find nothing, in which case the result is the freshly auto-created spool; when
the identity steps miss and the heuristic applies, the result is an unloaded
matching spool minimal for (remaining percent, last used), falling back to
all spools only when no unloaded one matches; and of two unloaded same-type
same-color candidates at 80% and 30%, the 30% one is returned. -/
theorem c1_matcher_priority (now : Int) (db : InventoryDB) (td : TrayData) :
    (∀ A, truthyS td.tray_uuid = true →
      db.filaments.filter (fun f => f.tray_uuid == td.tray_uuid) = [A] →
      match_filament_to_inventory now db td = (A, MatchMethod.by_tray_uuid, db)) ∧
    (∀ A, (truthyS td.tray_uuid = true →
        db.filaments.filter (fun f => f.tray_uuid == td.tray_uuid) = []) →
      truthyS td.tag_uid = true →
      db.filaments.filter (fun f => f.tag_uid == td.tag_uid) = [A] →
      match_filament_to_inventory now db td = (A, MatchMethod.by_tag_uid, db)) ∧
    (∀ A, (truthyS td.tray_uuid = true →
        db.filaments.filter (fun f => f.tray_uuid == td.tray_uuid) = []) →
      (truthyS td.tag_uid = true →
        db.filaments.filter (fun f => f.tag_uid == td.tag_uid) = []) →
      truthyS td.tag_id = true →
      db.filaments.filter (fun f => f.tag_id == td.tag_id) = [A] →
      match_filament_to_inventory now db td = (A, MatchMethod.by_tag_id, db)) ∧
    ((match_filament_to_inventory now db td).2.1 = MatchMethod.auto_created ↔
      ((truthyS td.tray_uuid = true →
          db.filaments.filter (fun f => f.tray_uuid == td.tray_uuid) = []) ∧
       (truthyS td.tag_uid = true →
          db.filaments.filter (fun f => f.tag_uid == td.tag_uid) = []) ∧
       (truthyS td.tag_id = true →
          db.filaments.filter (fun f => f.tag_id == td.tag_id) = []) ∧
       ((truthyS td.ttype && truthyS td.color) = true →
          db.filaments.filter (heuristicFilters td) = []))) ∧
    ((match_filament_to_inventory now db td).2.1 = MatchMethod.auto_created →
      match_filament_to_inventory now db td =
        ((auto_create_filament now db td).1, MatchMethod.auto_created,
         (auto_create_filament now db td).2)) ∧
    ((truthyS td.tray_uuid = true →
        db.filaments.filter (fun f => f.tray_uuid == td.tray_uuid) = []) →
     (truthyS td.tag_uid = true →
        db.filaments.filter (fun f => f.tag_uid == td.tag_uid) = []) →
     (truthyS td.tag_id = true →
        db.filaments.filter (fun f => f.tag_id == td.tag_id) = []) →
     (truthyS td.ttype && truthyS td.color) = true →
     db.filaments.filter (fun f => heuristicFilters td f && !f.is_loaded_in_ams) ≠ [] →
      (match_filament_to_inventory now db td).2.1 = MatchMethod.type_sub_type_color ∧
      (match_filament_to_inventory now db td).2.2 = db ∧
      (match_filament_to_inventory now db td).1 ∈
        db.filaments.filter (fun f => heuristicFilters td f && !f.is_loaded_in_ams) ∧
      (∀ g ∈ db.filaments.filter (fun f => heuristicFilters td f && !f.is_loaded_in_ams),
        filamentHeurLT g (match_filament_to_inventory now db td).1 = false)) ∧
    ((truthyS td.tray_uuid = true →
        db.filaments.filter (fun f => f.tray_uuid == td.tray_uuid) = []) →
     (truthyS td.tag_uid = true →
        db.filaments.filter (fun f => f.tag_uid == td.tag_uid) = []) →
     (truthyS td.tag_id = true →
        db.filaments.filter (fun f => f.tag_id == td.tag_id) = []) →
     (truthyS td.ttype && truthyS td.color) = true →
     db.filaments.filter (fun f => heuristicFilters td f && !f.is_loaded_in_ams) = [] →
     db.filaments.filter (heuristicFilters td) ≠ [] →
      (match_filament_to_inventory now db td).2.1 = MatchMethod.type_sub_type_color ∧
      (match_filament_to_inventory now db td).2.2 = db ∧
      (match_filament_to_inventory now db td).1 ∈
        db.filaments.filter (heuristicFilters td) ∧
      (∀ g ∈ db.filaments.filter (heuristicFilters td),
        filamentHeurLT g (match_filament_to_inventory now db td).1 = false)) ∧
    (match_filament_to_inventory 0
      { filaments := [(
          { id := 1, ftype := "PLA", color := some "Red",
            remaining_percent := 80 } : Filament), (
          { id := 2, ftype := "PLA", color := some "Red",
            remaining_percent := 30 } : Filament)] }
      { ttype := some "PLA", color := some "Red" } =
      ({ id := 2, ftype := "PLA", color := some "Red", remaining_percent := 30 },
       MatchMethod.type_sub_type_color,
       { filaments := [(
          { id := 1, ftype := "PLA", color := some "Red",
            remaining_percent := 80 } : Filament), (
          { id := 2, ftype := "PLA", color := some "Red",
            remaining_percent := 30 } : Filament)] })) := by
  have hsome_of_ne : ∀ (l : List Filament), l ≠ [] →
      ∃ x, qFirst filamentMetaLT l = some x := by
    intro l hl
    cases hq : qFirst filamentMetaLT l with
    | none => exact absurd (qFirst_eq_none.mp hq) hl
    | some x => exact ⟨x, rfl⟩
  have hsomeH_of_ne : ∀ (l : List Filament), l ≠ [] →
      ∃ x, qFirst filamentHeurLT l = some x := by
    intro l hl
    cases hq : qFirst filamentHeurLT l with
    | none => exact absurd (qFirst_eq_none.mp hq) hl
    | some x => exact ⟨x, rfl⟩
  -- Under the three identity-miss conditions, the result is decided by step 4/5.
  have hcascade : (truthyS td.tray_uuid = true →
        db.filaments.filter (fun f => f.tray_uuid == td.tray_uuid) = []) →
     (truthyS td.tag_uid = true →
        db.filaments.filter (fun f => f.tag_uid == td.tag_uid) = []) →
     (truthyS td.tag_id = true →
        db.filaments.filter (fun f => f.tag_id == td.tag_id) = []) →
      match_filament_to_inventory now db td =
        (match (if (truthyS td.ttype && truthyS td.color) = true then
            match qFirst filamentHeurLT (db.filaments.filter (fun f =>
                heuristicFilters td f && !f.is_loaded_in_ams)) with
            | some f => some f
            | none => qFirst filamentHeurLT (db.filaments.filter (heuristicFilters td))
          else none) with
         | some f => (f, MatchMethod.type_sub_type_color, db)
         | none => ((auto_create_filament now db td).1, MatchMethod.auto_created,
             (auto_create_filament now db td).2)) := by
    intro h1 h2 h3
    by_cases hu1 : truthyS td.tray_uuid <;>
      by_cases hu2 : truthyS td.tag_uid <;>
        by_cases hu3 : truthyS td.tag_id <;>
          simp [match_filament_to_inventory, hu1, hu2, hu3,
            h1, h2, h3, qFirst]
  have hforward : (match_filament_to_inventory now db td).2.1 = MatchMethod.auto_created →
      ((truthyS td.tray_uuid = true →
          db.filaments.filter (fun f => f.tray_uuid == td.tray_uuid) = []) ∧
       (truthyS td.tag_uid = true →
          db.filaments.filter (fun f => f.tag_uid == td.tag_uid) = []) ∧
       (truthyS td.tag_id = true →
          db.filaments.filter (fun f => f.tag_id == td.tag_id) = []) ∧
       ((truthyS td.ttype && truthyS td.color) = true →
          db.filaments.filter (heuristicFilters td) = [])) := by
    intro hmeth
    have c1 : truthyS td.tray_uuid = true →
        db.filaments.filter (fun f => f.tray_uuid == td.tray_uuid) = [] := by
      intro h1
      by_contra hne
      obtain ⟨x, hx⟩ := hsome_of_ne _ hne
      have : match_filament_to_inventory now db td =
          (x, MatchMethod.by_tray_uuid, db) := by
        simp [match_filament_to_inventory, h1, hx]
      rw [this] at hmeth
      exact absurd hmeth (by simp)
    have c2 : truthyS td.tag_uid = true →
        db.filaments.filter (fun f => f.tag_uid == td.tag_uid) = [] := by
      intro h2
      by_contra hne
      obtain ⟨x, hx⟩ := hsome_of_ne _ hne
      have : match_filament_to_inventory now db td =
          (x, MatchMethod.by_tag_uid, db) := by
        by_cases hu1 : truthyS td.tray_uuid <;>
          simp [match_filament_to_inventory, hu1, c1, h2, hx, qFirst]
      rw [this] at hmeth
      exact absurd hmeth (by simp)
    have c3 : truthyS td.tag_id = true →
        db.filaments.filter (fun f => f.tag_id == td.tag_id) = [] := by
      intro h3
      by_contra hne
      obtain ⟨x, hx⟩ := hsome_of_ne _ hne
      have : match_filament_to_inventory now db td =
          (x, MatchMethod.by_tag_id, db) := by
        by_cases hu1 : truthyS td.tray_uuid <;>
          by_cases hu2 : truthyS td.tag_uid <;>
            simp [match_filament_to_inventory, hu1, hu2, c1, c2, h3, hx, qFirst]
      rw [this] at hmeth
      exact absurd hmeth (by simp)
    refine ⟨c1, c2, c3, ?_⟩
    intro htc
    by_contra hne
    obtain ⟨x, hx⟩ := hsomeH_of_ne _ hne
    have hres := hcascade c1 c2 c3
    rw [htc] at hres
    simp only [if_true] at hres
    cases hqu : qFirst filamentHeurLT (db.filaments.filter (fun f =>
        heuristicFilters td f && !f.is_loaded_in_ams)) with
    | some y =>
      rw [hqu] at hres
      simp only [] at hres
      rw [hres] at hmeth
      exact absurd hmeth (by simp)
    | none =>
      rw [hqu, hx] at hres
      simp only [] at hres
      rw [hres] at hmeth
      exact absurd hmeth (by simp)
  have hback : ((truthyS td.tray_uuid = true →
          db.filaments.filter (fun f => f.tray_uuid == td.tray_uuid) = []) ∧
       (truthyS td.tag_uid = true →
          db.filaments.filter (fun f => f.tag_uid == td.tag_uid) = []) ∧
       (truthyS td.tag_id = true →
          db.filaments.filter (fun f => f.tag_id == td.tag_id) = []) ∧
       ((truthyS td.ttype && truthyS td.color) = true →
          db.filaments.filter (heuristicFilters td) = [])) →
      match_filament_to_inventory now db td =
        ((auto_create_filament now db td).1, MatchMethod.auto_created,
         (auto_create_filament now db td).2) := by
    rintro ⟨c1, c2, c3, c4⟩
    have hres := hcascade c1 c2 c3
    by_cases htc : (truthyS td.ttype && truthyS td.color) = true
    · have hall := c4 htc
      have hunl : db.filaments.filter (fun f =>
          heuristicFilters td f && !f.is_loaded_in_ams) = [] :=
        filter_and_eq_nil hall
      rw [htc, hall, hunl] at hres
      simp only [if_true, qFirst] at hres
      rw [hres]
    · rw [if_neg htc] at hres
      simp only [] at hres
      rw [hres]
  refine ⟨?_, ?_, ?_, ⟨hforward, fun hc => by rw [hback hc]⟩,
    fun hm => hback (hforward hm), ?_, ?_, ?_⟩
  · intro A h1 hrows
    simp [match_filament_to_inventory, h1, hrows, qFirst]
  · intro A c1 h2 hrows
    by_cases hu1 : truthyS td.tray_uuid <;>
      simp [match_filament_to_inventory, hu1, c1, h2, hrows, qFirst]
  · intro A c1 c2 h3 hrows
    by_cases hu1 : truthyS td.tray_uuid <;>
      by_cases hu2 : truthyS td.tag_uid <;>
        simp [match_filament_to_inventory, hu1, hu2, c1, c2, h3, hrows, qFirst]
  · intro c1 c2 c3 htc hne
    obtain ⟨F, hF⟩ := hsomeH_of_ne _ hne
    have hres := hcascade c1 c2 c3
    rw [htc] at hres
    simp only [if_true] at hres
    rw [hF] at hres
    simp only [] at hres
    refine ⟨by rw [hres], by rw [hres], ?_, ?_⟩
    · rw [hres]; exact qFirst_mem hF
    · intro g hg
      rw [hres]
      exact qFirst_min filamentHeurLT_asymm filamentHeurLT_negtrans hF g hg
  · intro c1 c2 c3 htc hunl hne
    obtain ⟨F, hF⟩ := hsomeH_of_ne _ hne
    have hres := hcascade c1 c2 c3
    rw [htc] at hres
    simp only [if_true] at hres
    rw [hunl] at hres
    simp only [qFirst] at hres
    rw [hF] at hres
    simp only [] at hres
    refine ⟨by rw [hres], by rw [hres], ?_, ?_⟩
    · rw [hres]; exact qFirst_mem hF
    · intro g hg
      rw [hres]
      exact qFirst_min filamentHeurLT_asymm filamentHeurLT_negtrans hF g hg
  · rfl

/-- Witness for C1 at concrete inventories: an observation carrying a hardware
UID matching spool 1 and a type/color heuristic match to spool 2 resolves to
spool 1 via the UID; and with no hardware UID, an observation carrying a chip
UID matching spool 3 and a type/color heuristic match to spool 4 resolves to
spool 3 via the chip UID. -/
theorem c1_matcher_priority_witness :
    (match_filament_to_inventory 0
      { filaments := [(
          { id := 1, tray_uuid := some "u1", ftype := "PLA",
            color := some "Red", remaining_percent := 50 } : Filament), (
          { id := 2, ftype := "PLA", color := some "Red",
            remaining_percent := 30 } : Filament)] }
      { tray_uuid := some "u1", ttype := some "PLA", color := some "Red" } =
      ({ id := 1, tray_uuid := some "u1", ftype := "PLA",
         color := some "Red", remaining_percent := 50 },
       MatchMethod.by_tray_uuid,
       { filaments := [(
          { id := 1, tray_uuid := some "u1", ftype := "PLA",
            color := some "Red", remaining_percent := 50 } : Filament), (
          { id := 2, ftype := "PLA", color := some "Red",
            remaining_percent := 30 } : Filament)] })) ∧
    (match_filament_to_inventory 0
      { filaments := [(
          { id := 3, tag_uid := some "t9", ftype := "PLA",
            color := some "Red", remaining_percent := 50 } : Filament), (
          { id := 4, ftype := "PLA", color := some "Red",
            remaining_percent := 30 } : Filament)] }
      { tag_uid := some "t9", ttype := some "PLA", color := some "Red" } =
      ({ id := 3, tag_uid := some "t9", ftype := "PLA",
         color := some "Red", remaining_percent := 50 },
       MatchMethod.by_tag_uid,
       { filaments := [(
          { id := 3, tag_uid := some "t9", ftype := "PLA",
            color := some "Red", remaining_percent := 50 } : Filament), (
          { id := 4, ftype := "PLA", color := some "Red",
            remaining_percent := 30 } : Filament)] })) :=
  ⟨(c1_matcher_priority 0
    { filaments := [(
        { id := 1, tray_uuid := some "u1", ftype := "PLA",
          color := some "Red", remaining_percent := 50 } : Filament), (
        { id := 2, ftype := "PLA", color := some "Red",
          remaining_percent := 30 } : Filament)] }
    { tray_uuid := some "u1", ttype := some "PLA", color := some "Red" }).1
    { id := 1, tray_uuid := some "u1", ftype := "PLA",
      color := some "Red", remaining_percent := 50 }
    (by decide) (by decide),
   (c1_matcher_priority 0
    { filaments := [(
        { id := 3, tag_uid := some "t9", ftype := "PLA",
          color := some "Red", remaining_percent := 50 } : Filament), (
        { id := 4, ftype := "PLA", color := some "Red",
          remaining_percent := 30 } : Filament)] }
    { tag_uid := some "t9", ttype := some "PLA", color := some "Red" }).2.1
    { id := 3, tag_uid := some "t9", ftype := "PLA",
      color := some "Red", remaining_percent := 50 }
    (by decide) (by decide) (by decide)⟩

/-! ## C2: loaded-slot exclusivity -/

theorem mem_saveFilamentRow {rows : List Filament} {r a : Filament}
    (ha : a ∈ saveFilamentRow rows r) :
    a = r ∨ (a ∈ rows ∧ a.id ≠ r.id) := by
  unfold saveFilamentRow at ha
  split at ha
  · rcases List.mem_map.mp ha with ⟨g, hg, hga⟩
    by_cases hid : (g.id == r.id) = true
    · left
      rw [← hga]
      simp [hid]
    · right
      rw [← hga]
      simp only [hid, Bool.false_eq_true, if_false]
      exact ⟨hg, by simpa using hid⟩
  · rename_i hnone
    rcases List.mem_append.mp ha with h | h
    · right
      refine ⟨h, ?_⟩
      have hall : ∀ x ∈ rows, ¬ x.id = r.id := by simpa using hnone
      exact hall a h
    · left; simpa using h

theorem self_mem_saveFilamentRow (rows : List Filament) (r : Filament) :
    r ∈ saveFilamentRow rows r := by
  unfold saveFilamentRow
  split
  · rename_i hany
    rcases List.any_eq_true.mp hany with ⟨g, hg, hgid⟩
    refine List.mem_map.mpr ⟨g, hg, ?_⟩
    simp [hgid]
  · simp

theorem mem_saveFilamentRow_of_ne {rows : List Filament} {r a : Filament}
    (ha : a ∈ rows) (hne : a.id ≠ r.id) : a ∈ saveFilamentRow rows r := by
  unfold saveFilamentRow
  split
  · refine List.mem_map.mpr ⟨a, ha, ?_⟩
    simp [hne]
  · exact List.mem_append_left _ ha

theorem mem_eq_of_length_le_one {l : List α} (hl : l.length ≤ 1)
    (ha : a ∈ l) (hb : b ∈ l) : a = b := by
  cases l with
  | nil => simp at ha
  | cons x rest =>
    cases rest with
    | nil =>
      rcases List.mem_singleton.mp ha with rfl
      rcases List.mem_singleton.mp hb with rfl
      rfl
    | cons y rest2 => simp at hl

theorem percent_refresh_fields (now : Int) (f : Filament) (rp : Int) :
    (percent_refresh now f rp).id = f.id ∧
    (percent_refresh now f rp).current_tray_id = f.current_tray_id ∧
    (percent_refresh now f rp).is_loaded_in_ams = f.is_loaded_in_ams := by
  unfold percent_refresh update_remaining_weight
  split
  · split
    · split <;> simp
    · simp
  · simp

/-- Claim C2 counterexample: resolving a slot observation through the
auto-creation fallback does not unload the slot's previous occupant — after
one `process_tray_observation` over an inventory where spool 0 is loaded at
slot 0 and the observation matches nothing, both spool 0 and the auto-created
spool are marked loaded at slot 0 simultaneously. -/
theorem c2_loaded_exclusivity_counterexample :
    ((process_tray_observation 1000
      { filaments := [(
          { id := 0, ftype := "PLA", color := some "Blue", remaining_percent := 50,
            is_loaded_in_ams := true,
            current_tray_id := some (PyVal.pint 0) } : Filament)],
        nextFilamentId := 1 }
      { tray_id := some "0", ttype := some "PETG", color := some "Red",
        remain_percent := some 80 }).1.filaments.filter
      (fun f => f.is_loaded_in_ams &&
        f.current_tray_id == some (PyVal.pint 0))).length = 2 := by decide

/-- Claim C2 as amended: when the matcher resolves a slot observation to an
existing spool and `_update_filament_status` runs (the in-memory instance
carries the stored, integer-typed slot value, never the observed string),
loaded-slot exclusivity holds: the resolved spool ends loaded at the slot with
a fresh last-loaded timestamp, no other spool is left marked loaded at that
slot, and the previous occupant ends unloaded with its slot index cleared.
The auto-creation fallback, by contrast, marks the new spool loaded without
unloading the previous occupant (see the counterexample). Per the data model
a spool stores a single slot index, so it is loaded in at most one slot. -/
theorem c2_loaded_exclusivity_amended (now : Int) (db : InventoryDB) (f : Filament)
    (tray_id : String) (remain_percent : Int)
    (hcur : f.current_tray_id ≠ some (PyVal.pstr tray_id))
    (hexcl : (db.filaments.filter (fun g => g.is_loaded_in_ams &&
        g.current_tray_id == some (PyVal.pint (strToIntD tray_id)) &&
        g.id != f.id)).length ≤ 1) :
    (∃ r ∈ (update_filament_status now db f tray_id remain_percent).filaments,
      r.id = f.id ∧ r.is_loaded_in_ams = true ∧
      r.current_tray_id = some (PyVal.pint (strToIntD tray_id)) ∧
      r.last_loaded_date = some now) ∧
    (∀ g ∈ (update_filament_status now db f tray_id remain_percent).filaments,
      g.id ≠ f.id →
      ¬(g.is_loaded_in_ams = true ∧
        g.current_tray_id = some (PyVal.pint (strToIntD tray_id)))) ∧
    (∀ g ∈ db.filaments, g.id ≠ f.id → g.is_loaded_in_ams = true →
      g.current_tray_id = some (PyVal.pint (strToIntD tray_id)) →
      ∃ g2 ∈ (update_filament_status now db f tray_id remain_percent).filaments,
        g2.id = g.id ∧ g2.is_loaded_in_ams = false ∧ g2.current_tray_id = none) := by
  obtain ⟨hid, hcur1, _⟩ := percent_refresh_fields now f remain_percent
  set f1 := percent_refresh now f remain_percent with hf1
  have hC : (!f1.is_loaded_in_ams ||
      f1.current_tray_id != some (PyVal.pstr tray_id)) = true := by
    rw [hcur1]
    simp [hcur]
  have hres : update_filament_status now db f tray_id remain_percent =
      (let prev := qFirst filamentMetaLT (db.filaments.filter (fun g =>
        g.is_loaded_in_ams && g.current_tray_id ==
          some (PyVal.pint (strToIntD tray_id)) && g.id != f1.id))
      let db1 := match prev with
        | some p => saveFilament db
            { p with is_loaded_in_ams := false, current_tray_id := none }
        | none => db
      saveFilament db1 { f1 with
        is_loaded_in_ams := true
        current_tray_id := some (PyVal.pstr tray_id)
        last_loaded_date := some now }) := by
    rw [update_filament_status]
    rw [if_pos hC]
  set flt := db.filaments.filter (fun g => g.is_loaded_in_ams &&
    g.current_tray_id == some (PyVal.pint (strToIntD tray_id)) &&
    g.id != f1.id) with hflt
  have hexcl1 : flt.length ≤ 1 := by
    rw [hflt]
    simp only [hid]
    exact hexcl
  have hsavedf : dbSaveFilament { f1 with
      is_loaded_in_ams := true
      current_tray_id := some (PyVal.pstr tray_id)
      last_loaded_date := some now } =
      { f1 with
        is_loaded_in_ams := true
        current_tray_id := some (PyVal.pint (strToIntD tray_id))
        last_loaded_date := some now } := by
    simp [dbSaveFilament, pyNormalizeTray]
  refine ⟨?_, ?_, ?_⟩
  · refine ⟨{ f1 with
      is_loaded_in_ams := true
      current_tray_id := some (PyVal.pint (strToIntD tray_id))
      last_loaded_date := some now }, ?_, by simpa using hid, rfl, rfl, rfl⟩
    rw [hres]
    simp only [saveFilament, hsavedf]
    exact self_mem_saveFilamentRow _ _
  · intro g hg hgne hbad
    rw [hres] at hg
    simp only [saveFilament, hsavedf] at hg
    rcases mem_saveFilamentRow hg with rfl | ⟨hg1, _⟩
    · exact hgne (by simpa using hid)
    · cases hprev : qFirst filamentMetaLT flt with
      | some p =>
        rw [hprev] at hg1
        have hpmem : p ∈ flt := qFirst_mem hprev
        have hpflt := (List.mem_filter.mp (hflt ▸ hpmem)).2
        simp only [Bool.and_eq_true, beq_iff_eq, bne_iff_ne, ne_eq] at hpflt
        simp only [saveFilament] at hg1
        have hsavedp : dbSaveFilament
            { p with is_loaded_in_ams := false, current_tray_id := none } =
            { p with is_loaded_in_ams := false, current_tray_id := none } := by
          simp [dbSaveFilament]
        rw [hsavedp] at hg1
        rcases mem_saveFilamentRow hg1 with rfl | ⟨hg2, hgne2⟩
        · simp at hbad
        · have hgflt : g ∈ flt := by
            rw [hflt]
            refine List.mem_filter.mpr ⟨hg2, ?_⟩
            simp [hbad.1, hbad.2, hgne, hid]
          have : g = p := mem_eq_of_length_le_one hexcl1 hgflt hpmem
          exact hgne2 (by rw [this])
      | none =>
        rw [hprev] at hg1
        have hflt_nil : flt = [] := qFirst_eq_none.mp hprev
        have hgflt : g ∈ flt := by
          rw [hflt]
          refine List.mem_filter.mpr ⟨hg1, ?_⟩
          simp [hbad.1, hbad.2, hgne, hid]
        rw [hflt_nil] at hgflt
        simp at hgflt
  · intro g hg hgne hgl hgc
    have hgflt : g ∈ flt := by
      rw [hflt]
      refine List.mem_filter.mpr ⟨hg, ?_⟩
      simp [hgl, hgc, hgne, hid]
    cases hprev : qFirst filamentMetaLT flt with
    | none =>
      rw [qFirst_eq_none.mp hprev] at hgflt
      simp at hgflt
    | some p =>
      have hpmem : p ∈ flt := qFirst_mem hprev
      have hgp : g = p := mem_eq_of_length_le_one hexcl1 hgflt hpmem
      refine ⟨{ p with is_loaded_in_ams := false, current_tray_id := none },
        ?_, by rw [hgp], rfl, rfl⟩
      rw [hres, hprev]
      simp only [saveFilament]
      have hsavedp : dbSaveFilament
          { p with is_loaded_in_ams := false, current_tray_id := none } =
          { p with is_loaded_in_ams := false, current_tray_id := none } := by
        simp [dbSaveFilament]
      rw [hsavedp, hsavedf]
      have hpflt := (List.mem_filter.mp (hflt ▸ hpmem)).2
      simp only [Bool.and_eq_true, beq_iff_eq, bne_iff_ne, ne_eq] at hpflt
      exact mem_saveFilamentRow_of_ne (self_mem_saveFilamentRow _ _) hpflt.2

/-- Witness for C2 as amended: updating spool 1 into slot 0 (spool 0 was
loaded there) leaves spool 1 loaded at slot 0 with the fresh timestamp. -/
theorem c2_loaded_exclusivity_amended_witness :
    ∃ r ∈ (update_filament_status 100
      { filaments := [(
          { id := 0, is_loaded_in_ams := true,
            current_tray_id := some (PyVal.pint 0) } : Filament), (
          { id := 1, is_loaded_in_ams := true,
            current_tray_id := some (PyVal.pint 2) } : Filament)] }
      { id := 1, is_loaded_in_ams := true, current_tray_id := some (PyVal.pint 2) }
      "0" 80).filaments,
      r.id = (
        { id := 1, is_loaded_in_ams := true,
          current_tray_id := some (PyVal.pint 2) } : Filament).id ∧
      r.is_loaded_in_ams = true ∧
      r.current_tray_id = some (PyVal.pint (strToIntD "0")) ∧
      r.last_loaded_date = some 100 :=
  (c2_loaded_exclusivity_amended 100
    { filaments := [(
        { id := 0, is_loaded_in_ams := true,
          current_tray_id := some (PyVal.pint 0) } : Filament), (
        { id := 1, is_loaded_in_ams := true,
          current_tray_id := some (PyVal.pint 2) } : Filament)] }
    { id := 1, is_loaded_in_ams := true, current_tray_id := some (PyVal.pint 2) }
    "0" 80 (by decide) (by decide)).1

/-! ## C5: consumption accounting -/

theorem calculate_consumed_fields (u : FilamentUsage) :
    (calculate_consumed u).print_job_id = u.print_job_id ∧
    (calculate_consumed u).filament = u.filament ∧
    (calculate_consumed u).tray_id = u.tray_id ∧
    (calculate_consumed u).starting_percent = u.starting_percent ∧
    (calculate_consumed u).ending_percent = u.ending_percent ∧
    (calculate_consumed u).is_primary = u.is_primary := by
  unfold calculate_consumed
  split
  · dsimp only
    split
    · split <;> simp
    · simp
  · simp

theorem calculate_consumed_none {u : FilamentUsage} (h : u.ending_percent = none) :
    calculate_consumed u = u := by
  simp [calculate_consumed, h]

theorem calculate_consumed_some {u : FilamentUsage} {e : Int}
    (h : u.ending_percent = some e) :
    (calculate_consumed u).consumed_percent = some (u.starting_percent - e) ∧
    (∀ w, u.filament.initial_weight_grams = some w → w ≠ 0 →
      (calculate_consumed u).consumed_grams =
        some (Int.tdiv (w * (u.starting_percent - e)) 100)) ∧
    ((u.filament.initial_weight_grams = none ∨
        u.filament.initial_weight_grams = some 0) →
      (calculate_consumed u).consumed_grams = u.consumed_grams) := by
  refine ⟨?_, ?_, ?_⟩
  · simp only [calculate_consumed, h]
    rcases hw : u.filament.initial_weight_grams with _ | w
    · simp
    · by_cases hw0 : w = 0 <;> simp [hw0]
  · intro w hw hw0
    simp only [calculate_consumed, h, hw]
    simp [hw0]
  · intro hw
    rcases hw with hw | hw <;> simp [calculate_consumed, h, hw]

theorem usageForTray_spec (job : PrintJob) (n : Nat) (sm em : PrinterMetric)
    (t : Int) (ss : FilamentSnapshotRow) (fil : Filament)
    (hfind : sm.filament_snapshots.find? (fun s =>
      s.tray_id == t && s.filament.isSome) = some ss)
    (hfil : ss.filament = some fil) :
    ∃ u, usageForTray job n sm em t = some u ∧
      u.print_job_id = job.id ∧ u.filament = fil ∧ u.tray_id = t ∧
      u.starting_percent = pyOrInt ss.remain_percent 100 ∧
      u.ending_percent = (em.filament_snapshots.find? (fun s =>
        (s.filament.map Filament.id) == some fil.id && s.tray_id == t)).bind
        (fun s => s.remain_percent) ∧
      u.is_primary = (n == 1) ∧
      (u.ending_percent = none → u.consumed_percent = none ∧ u.consumed_grams = none) ∧
      (∀ e, u.ending_percent = some e →
        u.consumed_percent = some (u.starting_percent - e) ∧
        (∀ w, fil.initial_weight_grams = some w → w ≠ 0 →
          u.consumed_grams = some (Int.tdiv (w * (u.starting_percent - e)) 100)) ∧
        ((fil.initial_weight_grams = none ∨ fil.initial_weight_grams = some 0) →
          u.consumed_grams = none)) := by
  have hred : usageForTray job n sm em t = some (calculate_consumed {
      print_job_id := job.id
      filament := fil
      tray_id := t
      starting_percent := pyOrInt ss.remain_percent 100
      ending_percent := (em.filament_snapshots.find? (fun s =>
        (s.filament.map Filament.id) == some fil.id && s.tray_id == t)).bind
        (fun s => s.remain_percent)
      is_primary := n == 1 }) := by
    simp only [usageForTray, hfind, hfil]
  obtain ⟨h1, h2, h3, h4, h5, h6⟩ := calculate_consumed_fields {
      print_job_id := job.id
      filament := fil
      tray_id := t
      starting_percent := pyOrInt ss.remain_percent 100
      ending_percent := (em.filament_snapshots.find? (fun s =>
        (s.filament.map Filament.id) == some fil.id && s.tray_id == t)).bind
        (fun s => s.remain_percent)
      is_primary := n == 1 }
  refine ⟨calculate_consumed {
      print_job_id := job.id
      filament := fil
      tray_id := t
      starting_percent := pyOrInt ss.remain_percent 100
      ending_percent := (em.filament_snapshots.find? (fun s =>
        (s.filament.map Filament.id) == some fil.id && s.tray_id == t)).bind
        (fun s => s.remain_percent)
      is_primary := n == 1 }, hred, h1, h2, h3, by rw [h4], by rw [h5], h6, ?_, ?_⟩
  · intro hend
    rw [h5] at hend
    rw [calculate_consumed_none hend]
    exact ⟨rfl, rfl⟩
  · intro e hend
    rw [h5] at hend
    obtain ⟨hc1, hc2, hc3⟩ := calculate_consumed_some hend
    refine ⟨?_, ?_, fun hw => (hc3 hw).trans rfl⟩
    · rw [h4]
      exact hc1
    · intro w hw hw0
      rw [h4]
      exact hc2 w hw hw0

theorem usageForTray_tray_id {job : PrintJob} {n : Nat} {sm em : PrinterMetric}
    {t : Int} {u : FilamentUsage} (h : usageForTray job n sm em t = some u) :
    u.tray_id = t := by
  unfold usageForTray at h
  rcases hfind : sm.filament_snapshots.find? (fun s =>
      s.tray_id == t && s.filament.isSome) with _ | ss
  · simp only [hfind] at h
    exact absurd h (by simp)
  · rcases hfil : ss.filament with _ | fil
    · simp only [hfind, hfil] at h
      exact absurd h (by simp)
    · simp only [hfind, hfil, Option.some.injEq] at h
      rw [← h]
      exact (calculate_consumed_fields _).2.2.1

theorem filterMap_tray_single {g : Int → Option FilamentUsage} {u : FilamentUsage}
    {t : Int} (hgt : ∀ t' u', g t' = some u' → u'.tray_id = t') :
    ∀ {trays : List Int}, trays.Nodup → t ∈ trays → g t = some u →
    (trays.filterMap g).filter (fun x => x.tray_id == t) = [u] := by
  intro trays
  induction trays with
  | nil => intro _ h; simp at h
  | cons t0 rest ih =>
    intro hnd hmem hgu
    rcases List.mem_cons.mp hmem with rfl | hmr
    · have hnotin : t ∉ rest := (List.nodup_cons.mp hnd).1
      rw [List.filterMap_cons, hgu]
      have hu : (u.tray_id == t) = true := by simp [hgt t u hgu]
      have hrest : (rest.filterMap g).filter (fun x => x.tray_id == t) = [] := by
        refine List.filter_eq_nil_iff.mpr ?_
        intro x hx
        rcases List.mem_filterMap.mp hx with ⟨t', ht', hgt'⟩
        have hxt : x.tray_id = t' := hgt t' x hgt'
        have hne : t' ≠ t := fun he => hnotin (he ▸ ht')
        simp [hxt, hne]
      simp [hu, hrest]
    · have ht0 : t ≠ t0 := by
        intro he
        exact (List.nodup_cons.mp hnd).1 (he ▸ hmr)
      rw [List.filterMap_cons]
      cases hg0 : g t0 with
      | none => exact ih (List.nodup_cons.mp hnd).2 hmr hgu
      | some u0 =>
        have hu0 : u0.tray_id = t0 := hgt t0 u0 hg0
        have hne : (u0.tray_id == t) = false := by
          simp [hu0]
          exact fun he => ht0 he.symm
        rw [List.filter_cons_of_neg]
        · exact ih (List.nodup_cons.mp hnd).2 hmr hgu
        · simp [hne]

/-- Claim C5 counterexample: a start snapshot whose remaining percent is the
non-null value 0 still yields starting_percent 100 — `remain_percent or 100`
defaults on zero as well as on null, so "defaulting to 100 exactly when the
percent was null" is false. -/
theorem c5_consumption_counterexample :
    ((finalize_print_job
      { current_print_job := some (
          { id := 0,
            start_time := 10,
            start_metric := some (
              { id := 1,
                timestamp := 10,
                filament_snapshots := [(
                  { tray_id := 0,
                    filament := some { id := 5, initial_weight_grams := some 1000 },
                    remain_percent := some 0 } : FilamentSnapshotRow)] } :
              PrinterMetric) } : PrintJob),
        trays_used := [0] }
      { id := 2,
        timestamp := 70,
        filament_snapshots := [(
          { tray_id := 0,
            filament := some { id := 5, initial_weight_grams := some 1000 },
            remain_percent := some 60 } : FilamentSnapshotRow)] }
      { gcode_state := some "FINISH" }).usages.map
        (fun u => u.starting_percent)) = [100] ∧
    ¬ ((finalize_print_job
      { current_print_job := some (
          { id := 0,
            start_time := 10,
            start_metric := some (
              { id := 1,
                timestamp := 10,
                filament_snapshots := [(
                  { tray_id := 0,
                    filament := some { id := 5, initial_weight_grams := some 1000 },
                    remain_percent := some 0 } : FilamentSnapshotRow)] } :
              PrinterMetric) } : PrintJob),
        trays_used := [0] }
      { id := 2,
        timestamp := 70,
        filament_snapshots := [(
          { tray_id := 0,
            filament := some { id := 5, initial_weight_grams := some 1000 },
            remain_percent := some 60 } : FilamentSnapshotRow)] }
      { gcode_state := some "FINISH" }).usages.map
        (fun u => u.starting_percent)) = [0] := by
  constructor
  · rfl
  · intro h
    exact absurd h (by decide)

/-- Claim C5 as amended: on finalizing a job, each tracked used slot whose
start-metric snapshot has a resolved spool yields exactly one consumption
record, with: starting percent equal to the start snapshot's percent except
that null *or zero* defaults to 100; ending percent the end-metric snapshot's
percent for the same spool and slot (null when absent); consumed percent
starting minus ending when ending is present, else null; consumed grams
weight times consumed over 100 truncated to grams when the spool has a
non-null non-zero initial weight and ending is present, else null; and
primary flag true exactly when one slot was used — so slot 0 with start 80%,
end 60%, weight 1000g gives consumed 20% and 200g, primary. -/
theorem c5_consumption_amended :
    (∀ (st : TrackerState) (metric : PrinterMetric) (snapshot : SnapshotData)
      (job : PrintJob) (sm : PrinterMetric) (t : Int)
      (ss : FilamentSnapshotRow) (fil : Filament),
      st.current_print_job = some job →
      job.start_metric = some sm →
      st.trays_used.Nodup → t ∈ st.trays_used →
      sm.filament_snapshots.find? (fun s =>
        s.tray_id == t && s.filament.isSome) = some ss →
      ss.filament = some fil →
      ∃ news u,
        (finalize_print_job st metric snapshot).usages = st.usages ++ news ∧
        news.filter (fun x => x.tray_id == t) = [u] ∧
        u.print_job_id = job.id ∧ u.filament = fil ∧ u.tray_id = t ∧
        (∀ v, ss.remain_percent = some v → v ≠ 0 → u.starting_percent = v) ∧
        ((ss.remain_percent = none ∨ ss.remain_percent = some 0) →
          u.starting_percent = 100) ∧
        u.ending_percent = (metric.filament_snapshots.find? (fun s =>
          (s.filament.map Filament.id) == some fil.id && s.tray_id == t)).bind
          (fun s => s.remain_percent) ∧
        (u.ending_percent = none →
          u.consumed_percent = none ∧ u.consumed_grams = none) ∧
        (∀ e, u.ending_percent = some e →
          u.consumed_percent = some (u.starting_percent - e) ∧
          (∀ w, fil.initial_weight_grams = some w → w ≠ 0 →
            u.consumed_grams =
              some (Int.tdiv (w * (u.starting_percent - e)) 100)) ∧
          ((fil.initial_weight_grams = none ∨ fil.initial_weight_grams = some 0) →
            u.consumed_grams = none)) ∧
        (u.is_primary = true ↔ st.trays_used.length = 1)) ∧
    usageForTray { id := 0 } 1
      { id := 1,
        timestamp := 0,
        filament_snapshots := [(
          { tray_id := 0,
            filament := some { id := 5, initial_weight_grams := some 1000 },
            remain_percent := some 80 } : FilamentSnapshotRow)] }
      { id := 2,
        timestamp := 60,
        filament_snapshots := [(
          { tray_id := 0,
            filament := some { id := 5, initial_weight_grams := some 1000 },
            remain_percent := some 60 } : FilamentSnapshotRow)] }
      0 =
      some (
        { print_job_id := 0,
          filament := { id := 5, initial_weight_grams := some 1000 },
          tray_id := 0,
          starting_percent := 80,
          ending_percent := some 60,
          consumed_percent := some 20,
          consumed_grams := some 200,
          is_primary := true } : FilamentUsage) := by
  constructor
  · intro st metric snapshot job sm t ss fil hcur hsm hnd htmem hfind hfil
    have hne : st.trays_used ≠ [] := List.ne_nil_of_mem htmem
    have hsm2 : (calculate_duration { job with
        end_time := some metric.timestamp
        end_metric_id := some metric.id
        final_status := snapshot.gcode_state
        completion_percent := snapshot.print_percent.getD 0 }).start_metric =
        some sm := by
      simp [calculate_duration, hsm]
    have hid2 : (calculate_duration { job with
        end_time := some metric.timestamp
        end_metric_id := some metric.id
        final_status := snapshot.gcode_state
        completion_percent := snapshot.print_percent.getD 0 }).id = job.id := by
      simp [calculate_duration]
    set job2 := calculate_duration { job with
      end_time := some metric.timestamp
      end_metric_id := some metric.id
      final_status := snapshot.gcode_state
      completion_percent := snapshot.print_percent.getD 0 } with hjob2
    obtain ⟨u, hgu, hu1, hu2, hu3, hu4, hu5, hu6, hu7, hu8⟩ :=
      usageForTray_spec job2 st.trays_used.length sm metric t ss fil hfind hfil
    have hempty : st.trays_used.isEmpty = false := by
      cases hl : st.trays_used with
      | nil => exact absurd hl hne
      | cons a rest => rfl
    refine ⟨st.trays_used.filterMap
      (usageForTray job2 st.trays_used.length sm metric), u, ?_, ?_, ?_⟩
    · simp only [finalize_print_job, hcur, hsm2, hempty]
      rw [← hjob2]
      rw [hsm2]
      simp [hempty]
    · exact filterMap_tray_single (fun t' u' h => usageForTray_tray_id h)
        hnd htmem hgu
    · refine ⟨hu1.trans hid2, hu2, hu3, ?_, ?_, hu5, hu7, hu8, ?_⟩
      · intro v hv hv0
        rw [hu4, hv]
        simp [pyOrInt, hv0]
      · intro hv
        rcases hv with hv | hv <;> rw [hu4, hv] <;> simp [pyOrInt]
      · rw [hu6]
        simp
  · rfl

/-- Witness for C5 as amended at a concrete finalization: slot 0 tracked,
start snapshot 80% on a 1000g spool, end snapshot 60%. -/
theorem c5_consumption_amended_witness :
    ∃ news u,
      (finalize_print_job
        { current_print_job := some (
            { id := 0,
              start_time := 10,
              start_metric := some (
                { id := 1,
                  timestamp := 10,
                  filament_snapshots := [(
                    { tray_id := 0,
                      filament := some { id := 5, initial_weight_grams := some 1000 },
                      remain_percent := some 80 } : FilamentSnapshotRow)] } :
                PrinterMetric) } : PrintJob),
          trays_used := [0] }
        { id := 2,
          timestamp := 70,
          filament_snapshots := [(
            { tray_id := 0,
              filament := some { id := 5, initial_weight_grams := some 1000 },
              remain_percent := some 60 } : FilamentSnapshotRow)] }
        { gcode_state := some "FINISH" }).usages =
        ([] : List FilamentUsage) ++ news ∧
      news.filter (fun x => x.tray_id == (0 : Int)) = [u] ∧
      u.print_job_id = 0 ∧
      u.filament = { id := 5, initial_weight_grams := some 1000 } ∧
      u.tray_id = 0 ∧
      (∀ v, (some 80 : Option Int) = some v → v ≠ 0 → u.starting_percent = v) ∧
      (((some 80 : Option Int) = none ∨ (some 80 : Option Int) = some 0) →
        u.starting_percent = 100) ∧
      u.ending_percent = some 60 ∧
      (u.ending_percent = none →
        u.consumed_percent = none ∧ u.consumed_grams = none) ∧
      (∀ e, u.ending_percent = some e →
        u.consumed_percent = some (u.starting_percent - e) ∧
        (∀ w, (some 1000 : Option Int) = some w → w ≠ 0 →
          u.consumed_grams = some (Int.tdiv (w * (u.starting_percent - e)) 100)) ∧
        (((some 1000 : Option Int) = none ∨ (some 1000 : Option Int) = some 0) →
          u.consumed_grams = none)) ∧
      (u.is_primary = true ↔ ([(0 : Int)]).length = 1) :=
  c5_consumption_amended.1
    { current_print_job := some (
        { id := 0,
          start_time := 10,
          start_metric := some (
            { id := 1,
              timestamp := 10,
              filament_snapshots := [(
                { tray_id := 0,
                  filament := some { id := 5, initial_weight_grams := some 1000 },
                  remain_percent := some 80 } : FilamentSnapshotRow)] } :
            PrinterMetric) } : PrintJob),
      trays_used := [0] }
    { id := 2,
      timestamp := 70,
      filament_snapshots := [(
        { tray_id := 0,
          filament := some { id := 5, initial_weight_grams := some 1000 },
          remain_percent := some 60 } : FilamentSnapshotRow)] }
    { gcode_state := some "FINISH" }
    { id := 0,
      start_time := 10,
      start_metric := some (
        { id := 1,
          timestamp := 10,
          filament_snapshots := [(
            { tray_id := 0,
              filament := some { id := 5, initial_weight_grams := some 1000 },
              remain_percent := some 80 } : FilamentSnapshotRow)] } :
        PrinterMetric) }
    { id := 1,
      timestamp := 10,
      filament_snapshots := [(
        { tray_id := 0,
          filament := some { id := 5, initial_weight_grams := some 1000 },
          remain_percent := some 80 } : FilamentSnapshotRow)] }
    0
    { tray_id := 0,
      filament := some { id := 5, initial_weight_grams := some 1000 },
      remain_percent := some 80 }
    { id := 5, initial_weight_grams := some 1000 }
    rfl rfl (by decide) (by decide) (by decide) rfl

/-! ## C6: state accumulator deep merge -/

